import Mathlib

/-!
# Verification of the iMessage extractor export pipeline

A shallow embedding of `src/iMessage-extractor/iMessage-extractor.py`.

The Python file defines several methods of the class `iMessageExporter` more
than once (`connect_to_database` twice; `export_conversations` and
`print_summary` three times).  In Python only the *last* definition of each
name in the class body is effective, so this embedding translates:
  * `sanitize_filename` (lines 76-93), `format_timestamp` (95-105),
    `is_plugin_attachment` (133-146) — module-level helpers;
  * `copy_attachment` (586-618) — the only definition;
  * `create_contact_folder` (321-348) — the only definition;
  * `export_conversations` — the third definition (858-988), which is the
    effective one; it has no plugin branch, no contact-name lookup and no
    earliest/latest timeframe tracking;
  * `print_summary` — the third definition (990-1034), the effective one;
  * `main` (1040-1063) and `setup_logging` (44-70).

External collaborators are modelled as data: the SQLite database is a
`Database` value (`none` stands for a failed `connect_to_database`), and the
filesystem is a set of existing file paths (`FS`) plus a trace of performed
operations (`List FsOp`).  Python strings are Lean `String`s; nullable
values are `Option`; Python truthiness of optional strings is `truthyStr`.
-/

/-! ## Path helpers (models of `os.path` functions used by the script) -/

/-- Model of the home directory used by `os.path.expanduser`; the concrete
value is environment-dependent and irrelevant to every claim. -/
def homeDir : String := "/Users/user"

/-- Model of `os.path.expanduser`: expands a leading `~` (the `~otheruser`
form is left untouched, as no claim depends on it). -/
def expanduser (p : String) : String :=
  match p.data with
  | ['~'] => homeDir
  | '~' :: '/' :: rest => homeDir ++ String.mk ('/' :: rest)
  | _ => p

/-- Model of `os.path.basename` (POSIX): the part after the last `/`. -/
def basename (p : String) : String :=
  String.mk (p.data.foldl (fun acc c => if c = '/' then [] else acc ++ [c]) [])

/-- Model of the two-argument `os.path.join` (POSIX): an absolute second
component replaces the first. -/
def joinPath (a b : String) : String :=
  if b.data.head? = some '/' then b
  else if a = "" then b
  else if a.data.getLast? = some '/' then a ++ b
  else a ++ "/" ++ b

/-! ## Module-level configuration constants (lines 1-7 and 29-38) -/

/-- `CONFIG.NORTH_AMERICA_ONLY` (line 4). -/
def NORTH_AMERICA_ONLY : Bool := true

/-- `CONFIG.SKIP_SHORT_CODES` (line 5). -/
def SKIP_SHORT_CODES : Bool := true

/-- `CONFIG.SEARCH_ALTERNATIVE_LOCATIONS` (line 6).  The effective
`copy_attachment` and `export_conversations` never read this flag. -/
def SEARCH_ALTERNATIVE_LOCATIONS : Bool := true

/-- `OUTPUT_DIR` (line 38). -/
def OUTPUT_DIR : String := "/Volumes/Coding/Python/iMessageExtractor/iMessageExport"

/-! ## `sanitize_filename` (lines 76-93) -/

/-- The `problematic_chars` list of `sanitize_filename` (line 82). -/
def problematic_chars : List Char := [':', '/', '\\', '<', '>', '"', '|', '?', '*']

/-- One `name.replace(char, '_')` step (line 84). -/
def replaceAllChar (c : Char) (l : List Char) : List Char :=
  l.map (fun x => if x = c then '_' else x)

/-- The character set of Python `strip(' .')` (line 87). -/
def isStripChar (c : Char) : Bool := c = ' ' || c = '.'

/-- `name.strip(' .')`: drop those characters from both ends. -/
def stripSpaceDot (l : List Char) : List Char :=
  ((l.dropWhile isStripChar).reverse.dropWhile isStripChar).reverse

/-- `sanitize_filename` (lines 76-93).  `if not name` collapses to the
empty-string test, the only falsy `str`. -/
def sanitize_filename (name : String) : String :=
  if name = "" then "Unknown"
  else
    let replaced := problematic_chars.foldl (fun acc c => replaceAllChar c acc) name.data
    let stripped := stripSpaceDot replaced
    let limited := if stripped.length > 100 then stripped.take 100 else stripped
    if limited.isEmpty then "Unknown" else String.mk limited

/-! ## `format_timestamp` (lines 95-105)

`datetime.datetime(2001, 1, 1) + datetime.timedelta(seconds=ts/1e9)` is the
instant `ts` nanoseconds after the Mac epoch.  `strftime` displays it at
second granularity, truncated toward minus infinity (timedelta normalisation
rounds that way), so the displayed instant is
`floor((macEpochSeconds * 10^9 + ts) / 10^9)` seconds after 0001-01-01
00:00:00, the origin of Python's proleptic-Gregorian ordinal.  The addition
raises `OverflowError` when the result leaves `datetime`'s range
(ordinals 1 .. 3652059); a huge `ts` makes the `timedelta` construction (or
the float conversion) raise `OverflowError` earlier, with the same caught
outcome.  Both exception types are caught on line 103. -/

/-- `date(9999, 12, 31).toordinal()`. -/
def MAX_ORDINAL : Nat := 3652059

/-- Seconds from 0001-01-01 00:00:00 to the Mac epoch 2001-01-01 00:00:00
(`date(2001, 1, 1).toordinal() = 730486`). -/
def macEpochSeconds : Int := (730486 - 1) * 86400

/-- Proleptic-Gregorian ordinal (1 = 0001-01-01) to `(year, month, day)`,
the standard era-based civil-from-days computation. -/
def civilFromOrdinal (ordinal : Nat) : Nat × Nat × Nat :=
  let z := ordinal + 305
  let era := z / 146097
  let doe := z % 146097
  let yoe := (doe - doe / 1460 + doe / 36524 - doe / 146096) / 365
  let y := yoe + era * 400
  let doy := doe - (365 * yoe + yoe / 4 - yoe / 100)
  let mp := (5 * doy + 2) / 153
  let d := doy - (153 * mp + 2) / 5 + 1
  let m := if mp < 10 then mp + 3 else mp - 9
  (if m ≤ 2 then y + 1 else y, m, d)

/-- Zero-pad a numeral to two digits (`%m`, `%d`, `%H`, `%M`, `%S`). -/
def pad2 (n : Nat) : String := if n < 10 then "0" ++ toString n else toString n

/-- Zero-pad a numeral to four digits (`%Y`). -/
def pad4 (n : Nat) : String :=
  if n < 10 then "000" ++ toString n
  else if n < 100 then "00" ++ toString n
  else if n < 1000 then "0" ++ toString n
  else toString n

/-- `dt.strftime("%Y-%m-%d %H:%M:%S")` for the instant `secondsOfDay`
seconds into the day with the given ordinal. -/
def strftimeYmdHms (ordinal secondsOfDay : Nat) : String :=
  let ymd := civilFromOrdinal ordinal
  pad4 ymd.1 ++ "-" ++ pad2 ymd.2.1 ++ "-" ++ pad2 ymd.2.2 ++ " " ++
    pad2 (secondsOfDay / 3600) ++ ":" ++ pad2 (secondsOfDay % 3600 / 60) ++ ":" ++
    pad2 (secondsOfDay % 60)

/-- `mac_epoch + timedelta(seconds=timestamp / 1000000000)` (line 101):
either the resulting `(ordinal, secondsOfDay)` or the `OverflowError`
raised when the result leaves `datetime`'s calendar range. -/
def datetimeFromMac (ts : Int) : Except String (Nat × Nat) :=
  let totalSeconds : Int := (macEpochSeconds * 1000000000 + ts).fdiv 1000000000
  let days : Int := totalSeconds.fdiv 86400
  let ordinal : Int := days + 1
  if ordinal < 1 || ordinal > (MAX_ORDINAL : Int) then
    Except.error "OverflowError: date value out of range"
  else
    Except.ok (ordinal.toNat, (totalSeconds - days * 86400).toNat)

/-- `format_timestamp` (lines 95-105).  `if timestamp:` is false for `None`
and for `0`; the `try`/`except (ValueError, OverflowError)` catch turns any
overflow into `"Unknown Time"`. -/
def format_timestamp (timestamp : Option Int) : String :=
  match timestamp with
  | none => "Unknown Time"
  | some ts =>
    if ts = 0 then "Unknown Time"
    else
      match datetimeFromMac ts with
      | Except.ok od => strftimeYmdHms od.1 od.2
      | Except.error _ => "Unknown Time"

/-! ## `is_plugin_attachment` (lines 133-146) -/

/-- `plugin_extensions` (lines 138-144). -/
def plugin_extensions : List String :=
  [".pluginPayloadAttachment", ".balloon", ".app", ".handwriting", ".digitaltouchdata"]

/-- `filename.lower()` on code points (sufficient for the ASCII suffixes
compared against). -/
def lowerStr (s : String) : String := String.mk (s.data.map Char.toLower)

/-- `str.endswith`. -/
def endsWithStr (s suffix : String) : Bool :=
  List.isPrefixOf suffix.data.reverse s.data.reverse

/-- `is_plugin_attachment` (lines 133-146). -/
def is_plugin_attachment (filename : Option String) : Bool :=
  match filename with
  | none => false
  | some f =>
    if f = "" then false
    else plugin_extensions.any (fun ext => endsWithStr (lowerStr f) (lowerStr ext))

/-! ## Data model: rows returned by the database queries -/

/-- One row of `get_attachments_for_message` (lines 300-319):
`(a.filename, a.transfer_name, a.mime_type, a.total_bytes)`. -/
structure Attachment where
  filename : Option String
  transfer_name : Option String
  mime_type : Option String
  total_bytes : Int
deriving DecidableEq

/-- One row of `get_messages_for_chat` (lines 275-298):
`(m.date, m.text, m.is_from_me, h.id, m.ROWID)`.  `is_from_me` is a SQLite
integer used only for truthiness, modelled as `Bool`. -/
structure Message where
  date : Option Int
  text : Option String
  is_from_me : Bool
  sender_handle : Option String
  message_id : Int
deriving DecidableEq

/-- One entry of the dict built by `get_contacts_and_chats` (lines 253-266).
`display_name` stores `display_name or room_name`, which is `None` when both
are falsy; `handles` is the Python set in its iteration order. -/
structure ChatInfo where
  display_name : Option String
  handles : List String
  chat_identifier : String
deriving DecidableEq

/-- The read-only data source: the chat dict in its insertion order and the
two per-item queries.  A query failure is modelled by the empty result the
`except sqlite3.Error` handlers return (lines 296-298, 317-319). -/
structure Database where
  chats : List (String × ChatInfo)
  messagesFor : String → List Message
  attachmentsFor : Int → List Attachment

/-! ## Python-value helpers -/

/-- Python truthiness of an optional string (`None` and `""` are falsy). -/
def truthyStr : Option String → Bool
  | none => false
  | some s => s != ""

/-- Python `a or b` for an optional string `a` and a string fallback. -/
def pyOrStr (a : Option String) (b : String) : String :=
  match a with
  | some s => if s = "" then b else s
  | none => b

/-! ## The stats dict (`__init__`, lines 164-175, and its uses) -/

/-- A Python dict value as stored in `self.stats`: every initialised entry is
an int; `failed_files`, which the effective code never writes, would be a
list of strings. -/
inductive PyVal where
  | vint : Int → PyVal
  | vlist : List String → PyVal
deriving DecidableEq

/-- `self.stats`: an insertion-ordered string-keyed dict. -/
abbrev Stats := List (String × PyVal)

/-- Dict lookup, first match. -/
def statLookup : Stats → String → Option PyVal
  | [], _ => none
  | kv :: rest, key => if kv.1 = key then some kv.2 else statLookup rest key

/-- `self.stats[key] += 1` on an int entry (every key the effective export
path increments is initialised to `vint 0`, so the read never fails). -/
def pyIncr : PyVal → PyVal
  | .vint n => .vint (n + 1)
  | v => v

/-- Increment the entry at `key`. -/
def statBump (s : Stats) (key : String) : Stats :=
  s.map (fun kv => if kv.1 = key then (kv.1, pyIncr kv.2) else kv)

/-- Read an int entry (used only at keys the dict contains). -/
def statInt (s : Stats) (key : String) : Int :=
  match statLookup s key with
  | some (.vint n) => n
  | _ => 0

/-- The dict literal of `__init__` (lines 167-175): the only keys `self.stats`
ever has, since the effective export path assigns no new ones. -/
def initStats : Stats :=
  [("conversations", .vint 0), ("messages", .vint 0), ("attachments_found", .vint 0),
   ("attachments_copied", .vint 0), ("attachments_skipped", .vint 0),
   ("attachments_failed", .vint 0), ("contacts_processed", .vint 0)]

/-! ## Filesystem model -/

/-- The set of existing files, as consulted by `os.path.exists` (the copy on
line 613 adds its destination to it). -/
abbrev FS := List String

/-- `os.path.exists`. -/
def fsExists (fs : FS) (p : String) : Bool := fs.contains p

/-- A filesystem operation performed by the run. -/
inductive FsOp where
  | makedirs : String → FsOp
  | copy2 : String → String → FsOp
  | writeFile : String → FsOp
deriving DecidableEq

/-- The recognised configuration switches (`DRY_RUN` line 30, `RESUME_MODE`
line 33), passed explicitly instead of read from globals. -/
structure Cfg where
  dryRun : Bool
  resumeMode : Bool
deriving DecidableEq

/-! ## `copy_attachment` (lines 586-618)

Returns the Python `(success, result)` pair together with the updated stats
dict, the updated file set and the filesystem operations performed.  The
`shutil.copy2` of the model filesystem always succeeds; the
`except (IOError, OSError)` branch (lines 617-618) is therefore never taken
(per-copy I/O failures are an external nondeterminism outside every claim
settled here). -/
def copy_attachment (resumeMode dryRun : Bool) (fs : FS) (stats : Stats)
    (attachment_info : Attachment) (destination_folder : String) :
    (Bool × String) × Stats × FS × List FsOp :=
  if !truthyStr attachment_info.filename then
    ((false, "No filename provided"), stats, fs, [])
  else
    let filename := attachment_info.filename.getD ""
    let source_path := expanduser filename
    let dest0 := basename filename
    let dest_filename :=
      if dest0 = "" then pyOrStr attachment_info.transfer_name "unknown_attachment" else dest0
    let dest_path := joinPath destination_folder dest_filename
    if resumeMode && fsExists fs dest_path then
      ((true, dest_filename), statBump stats "attachments_skipped", fs, [])
    else if !fsExists fs source_path then
      ((false, "Source file not found: " ++ source_path), stats, fs, [])
    else if dryRun then
      ((true, dest_filename), stats, fs, [])
    else
      ((true, dest_filename), stats, dest_path :: fs, [FsOp.copy2 source_path dest_path])

/-! ## `create_contact_folder` (lines 321-348) -/

/-- The folder-name precedence of lines 328-336. -/
def folderNameFor (chat_info : ChatInfo) : String :=
  if truthyStr chat_info.display_name then
    match chat_info.handles with
    | h :: _ => chat_info.display_name.getD "" ++ " (" ++ h ++ ")"
    | [] => chat_info.display_name.getD ""
  else
    match chat_info.handles with
    | h :: _ => h
    | [] => if chat_info.chat_identifier = "" then "Unknown Contact" else chat_info.chat_identifier

/-- The folder path computed on lines 338-343 (identical in dry and real
runs; only the `os.makedirs` differs). -/
def contactFolderFor (chat_info : ChatInfo) : String :=
  joinPath (joinPath OUTPUT_DIR "attachments") (sanitize_filename (folderNameFor chat_info))

/-- `create_contact_folder` (lines 321-348): the returned path plus the
`os.makedirs` performed unless `DRY_RUN` (lines 345-346). -/
def create_contact_folder (dryRun : Bool) (chat_info : ChatInfo) : String × List FsOp :=
  (contactFolderFor chat_info, if dryRun then [] else [FsOp.makedirs (contactFolderFor chat_info)])

/-! ## The effective `export_conversations` (third definition, lines 858-988) -/

/-- The header precedence of lines 910-920 (the effective version has no
contact-name lookup). -/
def headerFor (chat_id : String) (chat_info : ChatInfo) : String :=
  if truthyStr chat_info.display_name then
    match chat_info.handles with
    | h :: _ => "=== Conversation with " ++ chat_info.display_name.getD "" ++ " (" ++ h ++ ") ==="
    | [] => "=== Conversation with " ++ chat_info.display_name.getD "" ++ " ==="
  else
    match chat_info.handles with
    | h :: _ => "=== Conversation with " ++ h ++ " ==="
    | [] => "=== Conversation with " ++ chat_id ++ " ==="

/-- The sender label of lines 933-936: `"You"` when `is_from_me`, else
`chat_info.get('display_name') or sender_handle or "Unknown"`. -/
def senderFor (chat_info : ChatInfo) (m : Message) : String :=
  if m.is_from_me then "You"
  else pyOrStr chat_info.display_name (pyOrStr m.sender_handle "Unknown")

/-- `if msg_text and msg_text.strip():` (line 942): the body line is emitted
iff the text is present, nonempty and not all whitespace. -/
def textShown (t : Option String) : Bool :=
  match t with
  | none => false
  | some s => s != "" && String.mk (s.data.filter (fun c => !c.isWhitespace)) != ""

/-- The in-flight state of the export loop: the `messages_content` buffer,
`self.stats`, the file set and the operation trace. -/
structure RunState where
  lines : List String
  stats : Stats
  fs : FS
  eff : List FsOp
deriving DecidableEq

/-- The attachment loop body (lines 946-958): count the attachment, call
`copy_attachment`, then either the buggy duplicate guard (line 952) plus the
`[Attachment: …]` line, or the failure count plus the
`[Missing Attachment: …]` line. -/
def processAttachment (cfg : Cfg) (timestamp sender contact_folder : String)
    (attachments : List Attachment) (st : RunState) (attachment : Attachment) : RunState :=
  let stats1 := statBump st.stats "attachments_found"
  let r := copy_attachment cfg.resumeMode cfg.dryRun st.fs stats1 attachment contact_folder
  let success := r.1.1
  let result := r.1.2
  let stats2 := r.2.1
  let fs2 := r.2.2.1
  let eff2 := st.eff ++ r.2.2.2
  if success then
    let guardList :=
      (if statInt stats2 "attachments_skipped" > 0 then attachments else []).map
        (fun a => a.filename)
    let stats3 := if guardList.contains (some result) then stats2
                  else statBump stats2 "attachments_copied"
    { lines := st.lines ++ ["[" ++ timestamp ++ "] " ++ sender ++ ": [Attachment: " ++ result ++ "]"],
      stats := stats3, fs := fs2, eff := eff2 }
  else
    let attachment_name :=
      if truthyStr attachment.filename then basename (attachment.filename.getD "") else "unknown"
    { lines := st.lines ++
        ["[" ++ timestamp ++ "] " ++ sender ++ ": [Missing Attachment: " ++ attachment_name ++ "]"],
      stats := statBump stats2 "attachments_failed", fs := fs2, eff := eff2 }

/-- The message loop body (lines 926-958). -/
def processMessage (cfg : Cfg) (db : Database) (chat_info : ChatInfo)
    (contact_folder : String) (st : RunState) (m : Message) : RunState :=
  let stats1 := statBump st.stats "messages"
  let timestamp := format_timestamp m.date
  let sender := senderFor chat_info m
  let attachments := db.attachmentsFor m.message_id
  let st1 : RunState := { st with stats := stats1 }
  let st2 := if textShown m.text then
      { st1 with lines := st1.lines ++ ["[" ++ timestamp ++ "] " ++ sender ++ ": " ++ m.text.getD ""] }
    else st1
  attachments.foldl (processAttachment cfg timestamp sender contact_folder attachments) st2

/-- The chat loop body (lines 892-960): skip a chat with no messages, else
count it, create the contact folder, emit the header, process the messages
and append the separating blank line. -/
def processChat (cfg : Cfg) (db : Database) (st : RunState) (chat : String × ChatInfo) : RunState :=
  let messages := db.messagesFor chat.1
  if messages.isEmpty then st
  else
    let stats1 := statBump (statBump st.stats "conversations") "contacts_processed"
    let folderEff := create_contact_folder cfg.dryRun chat.2
    let st1 : RunState := { lines := st.lines ++ [headerFor chat.1 chat.2], stats := stats1,
                            fs := st.fs, eff := st.eff ++ folderEff.2 }
    let st2 := messages.foldl (processMessage cfg db chat.2 folderEff.1) st1
    { st2 with lines := st2.lines ++ [""] }

/-! ## The effective `print_summary` (third definition, lines 990-1034) -/

/-- `self.stats[key]`: raises `KeyError` when the key is absent. -/
def getItem (stats : Stats) (key : String) : Except String PyVal :=
  match statLookup stats key with
  | some v => Except.ok v
  | none => Except.error ("KeyError: " ++ key)

/-- Python truthiness of a stats value. -/
def pyTruthy : PyVal → Bool
  | .vint n => n != 0
  | .vlist l => !l.isEmpty

/-- `print_summary` (lines 990-1034): the sequence of `self.stats[...]`
reads in source order (console output itself is not modelled), ending with
the `failed_attachments.txt` write of lines 1023-1031 when `failed_files` is
truthy and not `DRY_RUN`.  The very first read, line 998's
`self.stats['earliest_message']`, raises `KeyError` whenever that key is
absent. -/
def print_summary (dryRun : Bool) (stats : Stats) : Except String (List FsOp) := do
  let em ← getItem stats "earliest_message"
  if pyTruthy em then
    let _ ← getItem stats "latest_message"
    pure ()
  else
    pure ()
  let _ ← getItem stats "contacts_processed"
  let _ ← getItem stats "conversations"
  let _ ← getItem stats "messages"
  let _ ← getItem stats "attachments_found"
  let _ ← getItem stats "attachments_copied"
  let _ ← getItem stats "plugin_attachments_skipped"
  let _ ← getItem stats "attachments_found_alternative"
  let _ ← getItem stats "attachments_skipped"
  let _ ← getItem stats "attachments_failed"
  let ff ← getItem stats "failed_files"
  if pyTruthy ff && !dryRun then
    pure [FsOp.writeFile (joinPath OUTPUT_DIR "failed_attachments.txt")]
  else
    pure []

/-- The `messages.txt` path (line 966). -/
def messagesPath : String := joinPath OUTPUT_DIR "messages.txt"

/-- The `failed_attachments.txt` path (line 1024). -/
def failedReportPath : String := joinPath OUTPUT_DIR "failed_attachments.txt"

/-- What one call of the effective `export_conversations` produces. -/
structure ExportOutcome where
  success : Bool
  lines : List String
  stats : Stats
  fs : FS
  eff : List FsOp
deriving DecidableEq

/-- The effective `export_conversations` (lines 858-988).  `dbase = none`
models a failed `connect_to_database` (early `return False`, line 873); an
empty chat dict returns `False` on line 880; otherwise the output
directories are prepared unless `DRY_RUN` (883-885), every chat is
processed, `messages.txt` is written unless `DRY_RUN` (967-969), and
`print_summary` runs inside the `try`: its `KeyError` is caught by the
`except Exception` handler (981-985), which returns `False`. -/
def export_conversations (cfg : Cfg) (dbase : Option Database) (fs0 : FS) : ExportOutcome :=
  match dbase with
  | none => ⟨false, [], initStats, fs0, []⟩
  | some db =>
    if db.chats.isEmpty then ⟨false, [], initStats, fs0, []⟩
    else
      let prepEff := if cfg.dryRun then [] else
        [FsOp.makedirs OUTPUT_DIR, FsOp.makedirs (joinPath OUTPUT_DIR "attachments")]
      let st0 : RunState := ⟨[], initStats, fs0, prepEff⟩
      let st := db.chats.foldl (processChat cfg db) st0
      let writeEff := if cfg.dryRun then [] else [FsOp.writeFile messagesPath]
      match print_summary cfg.dryRun st.stats with
      | Except.error _ => ⟨false, st.lines, st.stats, st.fs, st.eff ++ writeEff⟩
      | Except.ok sumEff => ⟨true, st.lines, st.stats, st.fs, st.eff ++ writeEff ++ sumEff⟩

/-! ## `setup_logging` (lines 44-70) and `main` (lines 1040-1063) -/

/-- `setup_logging` creates `OUTPUT_DIR` "even in dry run for logging"
(comment, line 46) and opens `export_debug.log` in append mode, creating the
file. -/
def setupLoggingEff : List FsOp :=
  [FsOp.makedirs OUTPUT_DIR, FsOp.writeFile (joinPath OUTPUT_DIR "export_debug.log")]

/-- `main` (lines 1040-1063): set up logging, run the export, and exit with
code 0 on `True` and 1 on `False`.  Returns the exit code and the full
filesystem-operation trace of the process. -/
def mainRun (cfg : Cfg) (dbase : Option Database) (fs0 : FS) : Nat × List FsOp :=
  let out := export_conversations cfg dbase fs0
  (if out.success then 0 else 1, setupLoggingEff ++ out.eff)

/-! ## Spec-side presentation of one conversation's transcript (§4.5)

These definitions restate the assembler output in the spec's shape — a
header, then one block per message in the database-returned order, each
block the message's text line followed immediately by its attachment lines,
then the separating blank line.  The ordering claim is settled by proving
the loop of `export_conversations` produces exactly this.  The branch taken by
`copy_attachment` and its updated file set do not depend on the stats dict,
so the mirror threads only the file set. -/

/-- The single transcript line of one attachment, and the file set after
it. -/
def specAttLine (cfg : Cfg) (timestamp sender contact_folder : String)
    (fs : FS) (a : Attachment) : String × FS :=
  let r := copy_attachment cfg.resumeMode cfg.dryRun fs [] a contact_folder
  (if r.1.1 then
     "[" ++ timestamp ++ "] " ++ sender ++ ": [Attachment: " ++ r.1.2 ++ "]"
   else
     "[" ++ timestamp ++ "] " ++ sender ++ ": [Missing Attachment: " ++
       (if truthyStr a.filename then basename (a.filename.getD "") else "unknown") ++ "]",
   r.2.2.1)

/-- The attachment lines of one message, in attachment order. -/
def specAttLines (cfg : Cfg) (timestamp sender contact_folder : String) :
    FS → List Attachment → List String × FS
  | fs, [] => ([], fs)
  | fs, a :: rest =>
    let step := specAttLine cfg timestamp sender contact_folder fs a
    let tail := specAttLines cfg timestamp sender contact_folder step.2 rest
    (step.1 :: tail.1, tail.2)

/-- One message's block: its text line (when shown) followed immediately by
its attachment lines. -/
def specMessageBlock (cfg : Cfg) (db : Database) (chat_info : ChatInfo)
    (contact_folder : String) (fs : FS) (m : Message) : List String × FS :=
  let timestamp := format_timestamp m.date
  let sender := senderFor chat_info m
  let als := specAttLines cfg timestamp sender contact_folder fs (db.attachmentsFor m.message_id)
  ((if textShown m.text then
      ["[" ++ timestamp ++ "] " ++ sender ++ ": " ++ m.text.getD ""]
    else []) ++ als.1, als.2)

/-- The blocks of a message list, one per message, in source order. -/
def specMessageBlocks (cfg : Cfg) (db : Database) (chat_info : ChatInfo)
    (contact_folder : String) : FS → List Message → List (List String) × FS
  | fs, [] => ([], fs)
  | fs, m :: rest =>
    let b := specMessageBlock cfg db chat_info contact_folder fs m
    let bs := specMessageBlocks cfg db chat_info contact_folder b.2 rest
    (b.1 :: bs.1, bs.2)

/-- One conversation's transcript contribution: nothing for a chat with no
messages, else header, the message blocks joined in order, and the blank
separator. -/
def specChatLines (cfg : Cfg) (db : Database) (fs : FS) (chat : String × ChatInfo) : List String :=
  let ms := db.messagesFor chat.1
  if ms.isEmpty then []
  else
    headerFor chat.1 chat.2 ::
      (specMessageBlocks cfg db chat.2 (contactFolderFor chat.2) fs ms).1.flatten ++ [""]

/-! ## Destination/source paths of a run (for the dry-run comparison) -/

/-- The destination filename `copy_attachment` derives (lines 597-599). -/
def destNameOf (a : Attachment) : String :=
  let d0 := basename (a.filename.getD "")
  if d0 = "" then pyOrStr a.transfer_name "unknown_attachment" else d0

/-- The `(dest_path, source_path)` pair of a resolvable attachment (one with
a truthy recorded filename); an attachment without one performs no
existence check at all. -/
def pairsOfAttachment (folder : String) (a : Attachment) : List (String × String) :=
  if truthyStr a.filename then
    [(joinPath folder (destNameOf a), expanduser (a.filename.getD ""))]
  else []

/-- The pairs of one message's attachments, in processing order. -/
def pairsOfMessage (db : Database) (folder : String) (m : Message) : List (String × String) :=
  (db.attachmentsFor m.message_id).flatMap (pairsOfAttachment folder)

/-- The pairs of one chat (empty for a skipped chat with no messages). -/
def pairsOfChat (db : Database) (chat : String × ChatInfo) : List (String × String) :=
  if (db.messagesFor chat.1).isEmpty then []
  else (db.messagesFor chat.1).flatMap (pairsOfMessage db (contactFolderFor chat.2))

/-- All `(dest_path, source_path)` pairs a run examines, in processing
order. -/
def allPairs (db : Database) : List (String × String) :=
  db.chats.flatMap (pairsOfChat db)

/-- The run's destination paths are pairwise distinct, absent from the
initial file set, and distinct from every source path — the condition under
which the resume existence checks behave identically with and without
`DRY_RUN` (a copied destination never shadows a later check). -/
def freshDests (db : Database) (fs0 : FS) : Prop :=
  ((allPairs db).map Prod.fst).Nodup ∧
  ∀ p ∈ allPairs db, p.1 ∉ fs0 ∧ ∀ q ∈ allPairs db, p.1 ≠ q.2

/-! ## Concrete scenarios used by the closed theorems -/

/-- The shipped configuration: `DRY_RUN = False`, `RESUME_MODE = True`
(lines 30 and 33). -/
def cfgRun : Cfg := ⟨false, true⟩

/-- The same with `DRY_RUN = True`. -/
def cfgDry : Cfg := ⟨true, true⟩

/-- A one-participant chat with no store display name. -/
def info1 : ChatInfo := ⟨none, ["+15551234567"], "c1"⟩

/-- A self message with body `"hi"` and store row id 1. -/
def msg1 : Message := ⟨none, some "hi", true, none, 1⟩

/-- A regular attachment recorded at `/att/x.jpg`. -/
def att1 : Attachment := ⟨some "/att/x.jpg", some "x.jpg", some "image/jpeg", 100⟩

/-- One chat, one message, one attachment. -/
def db_c1 : Database :=
  ⟨[("c1", info1)], fun c => if c = "c1" then [msg1] else [],
   fun i => if i = 1 then [att1] else []⟩

/-- The initial file set for the scenarios: only the attachment source
exists. -/
def fsA : FS := ["/att/x.jpg"]

/-- A database with no conversations. -/
def dbEmpty : Database := ⟨[], fun _ => [], fun _ => []⟩

/-- An app-payload attachment whose recorded source does not exist. -/
def attPlugin : Attachment :=
  ⟨some "/att/a.pluginPayloadAttachment", some "a.pluginPayloadAttachment",
   some "application/x-apple-plugin", 10⟩

/-- A message with no body carrying the payload attachment. -/
def msgPlugin : Message := ⟨none, none, true, none, 1⟩

/-- One chat, one message, the payload attachment. -/
def db_plugin : Database :=
  ⟨[("c1", info1)], fun c => if c = "c1" then [msgPlugin] else [],
   fun i => if i = 1 then [attPlugin] else []⟩

/-- An attachment whose recorded path is stale; a file with the same
basename exists at the alternate location `/alt/x.jpg`. -/
def attOrig : Attachment := ⟨some "/orig/x.jpg", some "x.jpg", some "image/jpeg", 100⟩

/-- One chat, one message, the stale-path attachment. -/
def db_orig : Database :=
  ⟨[("c1", info1)], fun c => if c = "c1" then [msg1] else [],
   fun i => if i = 1 then [attOrig] else []⟩

/-- The same attachment listed twice on one message: both resolve to the
same destination path. -/
def db_dup : Database :=
  ⟨[("c1", info1)], fun c => if c = "c1" then [msg1] else [],
   fun i => if i = 1 then [att1, att1] else []⟩

/-- An attachment with no recorded path but a transfer name. -/
def attNoName : Attachment := ⟨none, some "IMG_0001.jpg", some "image/jpeg", 7⟩

/-- An attachment whose recorded path `"/"` has an empty basename, with a
transfer name to fall back on. -/
def attSlash : Attachment := ⟨some "/", some "pic.jpg", some "image/jpeg", 7⟩

/-- A second chat used to show processing continues past a failure. -/
def info2 : ChatInfo := ⟨some "Bob", ["+15550000000"], "c2"⟩

/-- A message of the second chat. -/
def msg2 : Message := ⟨none, some "yo", false, some "+15550000000", 2⟩

/-- Two chats; the first one's attachment source is missing, the second has
none. -/
def db_two : Database :=
  ⟨[("c1", info1), ("c2", info2)],
   fun c => if c = "c1" then [msg1] else if c = "c2" then [msg2] else [],
   fun i => if i = 1 then [attOrig] else []⟩

instance (db : Database) (fs0 : FS) : Decidable (freshDests db fs0) := by
  unfold freshDests; infer_instance

/-- Simulation relation between a real-run state and a dry-run state at the
same point of the traversal: equal stats and transcript, the dry run's file
set still the initial one, and the real run's file set extended only by
destination paths of already-processed attachments (`dests`). -/
def DryRel (fs0 : FS) (dests : List String) (stW stD : RunState) : Prop :=
  stW.stats = stD.stats ∧ stW.lines = stD.lines ∧ stD.fs = fs0 ∧
  ∃ news : List String, stW.fs = news ++ fs0 ∧ ∀ x ∈ news, x ∈ dests

/-! ## Claim theorems -/

/-- Claim C1 (code bug).  Resume idempotence at the failing input `db_c1`
with `RESUME_MODE` on: run 1 copies the one resolvable attachment
(`attachments_copied = 1`, one `copy2`, `attachments_skipped = 0`).  Run 2,
started from run 1's filesystem with a fresh stats dict, takes the resume
branch for it — `attachments_skipped = 1`, performs no copy and leaves the
file set untouched — but, against the claim, *still* increments
`attachments_copied` to 1: the duplicate guard on line 952 compares the
destination basename `"x.jpg"` against the full recorded source paths, so
it never suppresses the increment, and every resume-skipped attachment is
double-counted as copied. -/
theorem c1_resume_double_count :
    (export_conversations cfgRun (some db_c1) fsA).eff.contains
      (FsOp.copy2 "/att/x.jpg"
        (OUTPUT_DIR ++ "/attachments/+15551234567/x.jpg")) = true ∧
    statLookup (export_conversations cfgRun (some db_c1) fsA).stats "attachments_copied"
      = some (.vint 1) ∧
    statLookup (export_conversations cfgRun (some db_c1) fsA).stats "attachments_skipped"
      = some (.vint 0) ∧
    statLookup (export_conversations cfgRun (some db_c1)
        (export_conversations cfgRun (some db_c1) fsA).fs).stats "attachments_skipped"
      = some (.vint 1) ∧
    (export_conversations cfgRun (some db_c1)
        (export_conversations cfgRun (some db_c1) fsA).fs).fs
      = (export_conversations cfgRun (some db_c1) fsA).fs ∧
    ((export_conversations cfgRun (some db_c1)
        (export_conversations cfgRun (some db_c1) fsA).fs).eff.all
      (fun op => match op with | FsOp.copy2 _ _ => false | _ => true)) = true ∧
    statLookup (export_conversations cfgRun (some db_c1)
        (export_conversations cfgRun (some db_c1) fsA).fs).stats "attachments_copied"
      = some (.vint 1) := by
  decide

/-- Claim C2 (code bug).  `is_plugin_attachment` does recognise the
`.pluginPayloadAttachment` suffix, but the effective export path
(`copy_attachment` lines 586-618 and the third `export_conversations`)
never calls it: a payload attachment whose bytes do not exist resolves to
the failure `"Source file not found: …"`, is rendered as a
`[Missing Attachment: …]` line, and increments `attachments_failed` — the
claimed `PluginPayload` outcome is unreachable.  (The plugin branch exists
only in the overridden second `export_conversations`, dead code.) -/
theorem c2_plugin_never_classified :
    is_plugin_attachment (some "/att/a.pluginPayloadAttachment") = true ∧
    (copy_attachment true false [] initStats attPlugin "/dest").1
      = (false, "Source file not found: /att/a.pluginPayloadAttachment") ∧
    (export_conversations cfgRun (some db_plugin) []).lines
      = ["=== Conversation with +15551234567 ===",
         "[Unknown Time] You: [Missing Attachment: a.pluginPayloadAttachment]", ""] ∧
    statLookup (export_conversations cfgRun (some db_plugin) []).stats "attachments_failed"
      = some (.vint 1) := by
  decide

/-- Claim C6 (code bug).  `CONFIG.SEARCH_ALTERNATIVE_LOCATIONS` is `True`,
yet the effective `copy_attachment` performs no alternate-location probe:
with the recorded path `/orig/x.jpg` absent and a file of the same basename
present at `/alt/x.jpg`, resolution fails immediately with
`"Source file not found"`, and the `attachments_found_alternative` counter
the summary would report is never even created in the stats dict. -/
theorem c6_no_alternate_probe :
    SEARCH_ALTERNATIVE_LOCATIONS = true ∧
    basename "/alt/x.jpg" = basename "/orig/x.jpg" ∧
    (copy_attachment true false ["/alt/x.jpg"] initStats attOrig "/dest").1
      = (false, "Source file not found: /orig/x.jpg") ∧
    statLookup initStats "attachments_found_alternative" = none ∧
    statLookup (export_conversations cfgRun (some db_orig) ["/alt/x.jpg"]).stats
      "attachments_found_alternative" = none := by
  decide

/-- Claim C8 (code bug).  The two claimed fatal cases do exit with code 1
(unopenable data source; zero conversations), and per-item failures do not
abort the run (`db_two`: the missing attachment is recorded and both
conversations are still processed) — but the claimed exit code 0 for the
non-fatal case is unreachable: even the fully successful `db_c1` run exits
1, because `print_summary` raises `KeyError` and the export returns
`False`. -/
theorem c8_exit_code_always_one :
    (mainRun cfgRun none fsA).1 = 1 ∧
    (mainRun cfgRun (some dbEmpty) fsA).1 = 1 ∧
    (mainRun cfgRun (some db_c1) fsA).1 = 1 ∧
    statLookup (export_conversations cfgRun (some db_two) fsA).stats "attachments_failed"
      = some (.vint 1) ∧
    statLookup (export_conversations cfgRun (some db_two) fsA).stats "conversations"
      = some (.vint 2) ∧
    statLookup (export_conversations cfgRun (some db_two) fsA).stats "messages"
      = some (.vint 2) := by
  decide

/-- Claim C3, counterexample.  A dry run is not free of filesystem effects:
`setup_logging` creates the output directory (and debug log) even in dry
run, so the full-run trace contains a `makedirs`.  And the stats of a dry
pass do not always equal those of a real pass over the same input: with the
same attachment listed twice (`db_dup`), the real run's first copy makes the
resume check skip the second occurrence (`attachments_skipped = 1`), while
the dry run, having created nothing, copies it again
(`attachments_skipped = 0`). -/
theorem c3_dry_run_counterexample :
    FsOp.makedirs OUTPUT_DIR ∈ (mainRun cfgDry (some db_dup) fsA).2 ∧
    statLookup (export_conversations cfgDry (some db_dup) fsA).stats "attachments_skipped"
      = some (.vint 0) ∧
    statLookup (export_conversations cfgRun (some db_dup) fsA).stats "attachments_skipped"
      = some (.vint 1) ∧
    (export_conversations cfgDry (some db_dup) fsA).stats
      ≠ (export_conversations cfgRun (some db_dup) fsA).stats := by
  decide

/-- Claim C7, counterexample.  An attachment with no recorded path but a
perfectly good transfer name is rejected with `Failed("No filename
provided")` — the resolver does not fall back to the transfer name in this
case, contradicting the claim that this failure occurs only when both are
absent. -/
theorem c7_no_filename_counterexample :
    truthyStr attNoName.transfer_name = true ∧
    copy_attachment true false [] initStats attNoName "/d"
      = ((false, "No filename provided"), initStats, [], []) := by
  decide

/-! ## Invariance helper lemmas -/

/-- A property preserved by every step is preserved by `List.foldl`. -/
theorem foldl_preserve {α β : Type} (P : β → Prop) {f : β → α → β}
    (h : ∀ b a, P b → P (f b a)) : ∀ (l : List α) (b : β), P b → P (l.foldl f b)
  | [], _, hb => hb
  | a :: l, b, hb => foldl_preserve P h l (f b a) (h b a hb)

/-- `statBump` on a cons. -/
theorem statBump_cons (kv : String × PyVal) (rest : Stats) (k : String) :
    statBump (kv :: rest) k =
      (if kv.1 = k then (kv.1, pyIncr kv.2) else kv) :: statBump rest k := rfl

/-- `statBump` writes no new key. -/
theorem statLookup_statBump_none {s : Stats} {k key : String}
    (h : statLookup s key = none) : statLookup (statBump s k) key = none := by
  induction s with
  | nil => rfl
  | cons kv rest ih =>
    unfold statLookup at h
    by_cases hkey : kv.1 = key
    · simp [hkey] at h
    · simp only [hkey, if_false] at h
      rw [statBump_cons]
      by_cases hk : kv.1 = k
      · rw [if_pos hk]
        show (if kv.1 = key then some (pyIncr kv.2) else statLookup (statBump rest k) key) = none
        rw [if_neg hkey]
        exact ih h
      · rw [if_neg hk]
        show (if kv.1 = key then some kv.2 else statLookup (statBump rest k) key) = none
        rw [if_neg hkey]
        exact ih h

/-- The stats result of `copy_attachment` is the input dict, possibly with
`attachments_skipped` bumped. -/
theorem copy_attachment_stats_cases (r d : Bool) (fs : FS) (s : Stats)
    (a : Attachment) (f : String) :
    (copy_attachment r d fs s a f).2.1 = s ∨
    (copy_attachment r d fs s a f).2.1 = statBump s "attachments_skipped" := by
  simp only [copy_attachment]
  repeat' split
  all_goals first | exact Or.inl rfl | exact Or.inr rfl

/-- `copy_attachment` writes no new stats key. -/
theorem copy_attachment_lookup_none {key : String} {s : Stats} (r d : Bool) (fs : FS)
    (a : Attachment) (f : String) (h : statLookup s key = none) :
    statLookup (copy_attachment r d fs s a f).2.1 key = none := by
  rcases copy_attachment_stats_cases r d fs s a f with hc | hc <;> rw [hc]
  · exact h
  · exact statLookup_statBump_none h

/-- The attachment loop body writes no new stats key. -/
theorem processAttachment_lookup_none {key : String} (cfg : Cfg)
    (ts sender folder : String) (atts : List Attachment) (st : RunState) (a : Attachment)
    (h : statLookup st.stats key = none) :
    statLookup (processAttachment cfg ts sender folder atts st a).stats key = none := by
  have h1 : statLookup (statBump st.stats "attachments_found") key = none :=
    statLookup_statBump_none h
  have h2 := copy_attachment_lookup_none cfg.resumeMode cfg.dryRun st.fs a folder h1
  unfold processAttachment
  dsimp only
  repeat' split
  all_goals first | exact h2 | exact statLookup_statBump_none h2

/-- The message loop body writes no new stats key. -/
theorem processMessage_lookup_none {key : String} (cfg : Cfg) (db : Database)
    (ci : ChatInfo) (folder : String) (st : RunState) (m : Message)
    (h : statLookup st.stats key = none) :
    statLookup (processMessage cfg db ci folder st m).stats key = none := by
  unfold processMessage
  dsimp only
  apply foldl_preserve (fun st' : RunState => statLookup st'.stats key = none)
    (fun b a hb => processAttachment_lookup_none cfg _ _ folder _ b a hb)
  split <;> exact statLookup_statBump_none h

/-- The chat loop body writes no new stats key. -/
theorem processChat_lookup_none {key : String} (cfg : Cfg) (db : Database)
    (st : RunState) (c : String × ChatInfo)
    (h : statLookup st.stats key = none) :
    statLookup (processChat cfg db st c).stats key = none := by
  unfold processChat
  dsimp only
  split
  · exact h
  · apply foldl_preserve (fun st' : RunState => statLookup st'.stats key = none)
      (fun b a hb => processMessage_lookup_none cfg db _ _ b a hb)
    exact statLookup_statBump_none (statLookup_statBump_none h)

/-- The whole chat loop writes no new stats key. -/
theorem chatsFold_lookup_none {key : String} (cfg : Cfg) (db : Database)
    (chats : List (String × ChatInfo)) (st0 : RunState)
    (h : statLookup st0.stats key = none) :
    statLookup (chats.foldl (processChat cfg db) st0).stats key = none :=
  foldl_preserve (fun st' : RunState => statLookup st'.stats key = none)
    (fun b a hb => processChat_lookup_none cfg db b a hb) chats st0 h

/-- With `earliest_message` absent — as it always is, `__init__` never
initialises it and the effective export path never assigns it —
`print_summary`'s very first stats read (line 998) raises `KeyError`. -/
theorem print_summary_keyerr (d : Bool) (stats : Stats)
    (h : statLookup stats "earliest_message" = none) :
    print_summary d stats = Except.error "KeyError: earliest_message" := by
  unfold print_summary getItem
  rw [h]
  rfl

/-- The effective `export_conversations` on a nonempty chat dict: the loop
runs, `messages.txt` is written unless dry run, and the summary's
`KeyError` forces the `False` return. -/
theorem export_some_eq (cfg : Cfg) (db : Database) (fs0 : FS)
    (hchats : db.chats.isEmpty = false) :
    export_conversations cfg (some db) fs0 =
      (fun st : RunState =>
        (⟨false, st.lines, st.stats, st.fs,
          st.eff ++ (if cfg.dryRun then [] else [FsOp.writeFile messagesPath])⟩ : ExportOutcome))
      (db.chats.foldl (processChat cfg db)
        ⟨[], initStats, fs0, if cfg.dryRun then [] else
          [FsOp.makedirs OUTPUT_DIR, FsOp.makedirs (joinPath OUTPUT_DIR "attachments")]⟩) := by
  show (if db.chats.isEmpty then (⟨false, [], initStats, fs0, []⟩ : ExportOutcome)
    else
      let prepEff := if cfg.dryRun then [] else
        [FsOp.makedirs OUTPUT_DIR, FsOp.makedirs (joinPath OUTPUT_DIR "attachments")]
      let st0 : RunState := ⟨[], initStats, fs0, prepEff⟩
      let st := db.chats.foldl (processChat cfg db) st0
      let writeEff := if cfg.dryRun then [] else [FsOp.writeFile messagesPath]
      match print_summary cfg.dryRun st.stats with
      | Except.error _ => ⟨false, st.lines, st.stats, st.fs, st.eff ++ writeEff⟩
      | Except.ok sumEff => ⟨true, st.lines, st.stats, st.fs, st.eff ++ writeEff ++ sumEff⟩) = _
  rw [if_neg (by rw [hchats]; exact Bool.false_ne_true)]
  simp only []
  rw [print_summary_keyerr _ _ (chatsFold_lookup_none cfg db _ _ (by rfl))]

/-- `copy_attachment` performs at most one `copy2` and nothing else. -/
theorem copy_attachment_eff_copy (r d : Bool) (fs : FS) (s : Stats) (a : Attachment)
    (f : String) :
    (copy_attachment r d fs s a f).2.2.2 = [] ∨
    ∃ sp dp, (copy_attachment r d fs s a f).2.2.2 = [FsOp.copy2 sp dp] := by
  simp only [copy_attachment]
  repeat' split
  all_goals first | exact Or.inl rfl | exact Or.inr ⟨_, _, rfl⟩

/-- The attachment loop body only appends `copy_attachment`'s operations. -/
theorem processAttachment_eff (cfg : Cfg) (ts sender folder : String)
    (atts : List Attachment) (st : RunState) (a : Attachment) :
    (processAttachment cfg ts sender folder atts st a).eff =
      st.eff ++ (copy_attachment cfg.resumeMode cfg.dryRun st.fs
        (statBump st.stats "attachments_found") a folder).2.2.2 := by
  simp only [processAttachment]
  repeat' split
  all_goals rfl

/-- The attachment loop body never writes a file. -/
theorem processAttachment_no_write (cfg : Cfg) (ts sender folder : String)
    (atts : List Attachment) (st : RunState) (a : Attachment)
    (h : ∀ p, FsOp.writeFile p ∉ st.eff) :
    ∀ p, FsOp.writeFile p ∉ (processAttachment cfg ts sender folder atts st a).eff := by
  intro p hp
  rw [processAttachment_eff] at hp
  rcases List.mem_append.mp hp with h1 | h2
  · exact h p h1
  · rcases copy_attachment_eff_copy cfg.resumeMode cfg.dryRun st.fs
      (statBump st.stats "attachments_found") a folder with hc | ⟨sp, dp, hc⟩ <;>
      rw [hc] at h2 <;> simp at h2

/-- The message loop body never writes a file. -/
theorem processMessage_no_write (cfg : Cfg) (db : Database) (ci : ChatInfo)
    (folder : String) (st : RunState) (m : Message)
    (h : ∀ p, FsOp.writeFile p ∉ st.eff) :
    ∀ p, FsOp.writeFile p ∉ (processMessage cfg db ci folder st m).eff := by
  unfold processMessage
  simp only []
  apply foldl_preserve (fun st' : RunState => ∀ p, FsOp.writeFile p ∉ st'.eff)
    (fun b a hb => processAttachment_no_write cfg _ _ folder _ b a hb)
  split <;> exact h

/-- The chat loop body never writes a file. -/
theorem processChat_no_write (cfg : Cfg) (db : Database) (st : RunState)
    (c : String × ChatInfo) (h : ∀ p, FsOp.writeFile p ∉ st.eff) :
    ∀ p, FsOp.writeFile p ∉ (processChat cfg db st c).eff := by
  unfold processChat
  simp only []
  split
  · exact h
  · apply foldl_preserve (fun st' : RunState => ∀ p, FsOp.writeFile p ∉ st'.eff)
      (fun b a hb => processMessage_no_write cfg db _ _ b a hb)
    intro p hp
    rcases List.mem_append.mp hp with h1 | h2
    · exact h p h1
    · unfold create_contact_folder at h2
      dsimp only at h2
      split at h2 <;> simp at h2

/-- In the whole run trace of the export loop, the only file write is
`messages.txt` (no run ever writes `failed_attachments.txt`). -/
theorem export_no_other_writes (cfg : Cfg) (db : Database) (fs0 : FS)
    (hchats : db.chats.isEmpty = false) :
    ∀ p, FsOp.writeFile p ∈ (export_conversations cfg (some db) fs0).eff →
      p = messagesPath := by
  rw [export_some_eq cfg db fs0 hchats]
  intro p hp
  have hbase : ∀ q, FsOp.writeFile q ∉
      ((⟨[], initStats, fs0, if cfg.dryRun then [] else
        [FsOp.makedirs OUTPUT_DIR, FsOp.makedirs (joinPath OUTPUT_DIR "attachments")]⟩ :
          RunState)).eff := by
    intro q hq
    by_cases hd : cfg.dryRun = true <;> simp [hd] at hq
  have hfold : ∀ q, FsOp.writeFile q ∉
      (db.chats.foldl (processChat cfg db)
        ⟨[], initStats, fs0, if cfg.dryRun then [] else
          [FsOp.makedirs OUTPUT_DIR, FsOp.makedirs (joinPath OUTPUT_DIR "attachments")]⟩).eff :=
    foldl_preserve (fun st' : RunState => ∀ q, FsOp.writeFile q ∉ st'.eff)
      (fun b a hb => processChat_no_write cfg db b a hb) db.chats _ hbase
  simp only [] at hp
  rcases List.mem_append.mp hp with h1 | h2
  · exact absurd h1 (hfold p)
  · by_cases hd : cfg.dryRun = true <;> simp [hd] at h2
    exact h2

/-- Claim C5 (confirmed).  Every run that reaches the summary step — the
data source opened and the chat dict nonempty, so the loop ran to the
`print_summary` call — hits `KeyError` on line 998's
`self.stats['earliest_message']` read: that key (like `latest_message`,
`plugin_attachments_skipped`, `attachments_found_alternative` and
`failed_files`) is never initialised by `__init__` nor assigned by the
effective export path.  The exception is caught by the `except Exception`
handler of `export_conversations`, which returns `False`, so `main` exits
with code 1 even though `messages.txt` was already written (in non-dry
runs), and `failed_attachments.txt` — reachable only after the failing read
— is never written by any run. -/
theorem c5_summary_key_error (cfg : Cfg) (db : Database) (fs0 : FS)
    (hchats : db.chats.isEmpty = false) :
    print_summary cfg.dryRun (export_conversations cfg (some db) fs0).stats
      = Except.error "KeyError: earliest_message" ∧
    (export_conversations cfg (some db) fs0).success = false ∧
    (mainRun cfg (some db) fs0).1 = 1 ∧
    (cfg.dryRun = false →
      FsOp.writeFile messagesPath ∈ (export_conversations cfg (some db) fs0).eff) ∧
    (∀ p, FsOp.writeFile p ∈ (export_conversations cfg (some db) fs0).eff →
      p = messagesPath) := by
  have hkey : statLookup (export_conversations cfg (some db) fs0).stats "earliest_message"
      = none := by
    rw [export_some_eq cfg db fs0 hchats]
    exact chatsFold_lookup_none cfg db _ _ rfl
  have hsucc : (export_conversations cfg (some db) fs0).success = false := by
    rw [export_some_eq cfg db fs0 hchats]
  refine ⟨print_summary_keyerr _ _ hkey, hsucc, ?_, ?_,
    export_no_other_writes cfg db fs0 hchats⟩
  · unfold mainRun
    simp only []
    rw [hsucc]
    rfl
  · intro hd
    rw [export_some_eq cfg db fs0 hchats]
    simp only []
    rw [hd]
    simp

/-- Witness for C5: the concrete one-conversation scenario `db_c1`. -/
theorem c5_summary_key_error_witness :
    print_summary cfgRun.dryRun (export_conversations cfgRun (some db_c1) fsA).stats
      = Except.error "KeyError: earliest_message" ∧
    (export_conversations cfgRun (some db_c1) fsA).success = false ∧
    (mainRun cfgRun (some db_c1) fsA).1 = 1 ∧
    (cfgRun.dryRun = false →
      FsOp.writeFile messagesPath ∈ (export_conversations cfgRun (some db_c1) fsA).eff) ∧
    (∀ p, FsOp.writeFile p ∈ (export_conversations cfgRun (some db_c1) fsA).eff →
      p = messagesPath) :=
  c5_summary_key_error cfgRun db_c1 fsA (by decide)

/-! ## Sanitizer lemmas -/

/-- One `replace` step leaves only `'_'` or original characters other than
the replaced one. -/
theorem mem_replaceAllChar {x c : Char} {l : List Char} (h : x ∈ replaceAllChar c l) :
    x = '_' ∨ (x ∈ l ∧ x ≠ c) := by
  unfold replaceAllChar at h
  rcases List.mem_map.mp h with ⟨y, hy, hxy⟩
  by_cases hyc : y = c
  · left
    rw [if_pos hyc] at hxy
    exact hxy.symm
  · right
    rw [if_neg hyc] at hxy
    exact ⟨hxy ▸ hy, hxy ▸ hyc⟩

/-- After all replacement steps, every character is `'_'` or an original
character not among those replaced. -/
theorem mem_foldl_replace : ∀ (cs l : List Char) (x : Char),
    x ∈ cs.foldl (fun acc c => replaceAllChar c acc) l →
    x = '_' ∨ (x ∈ l ∧ x ∉ cs)
  | [], _, _, h => Or.inr ⟨h, by simp⟩
  | c :: cs, l, x, h => by
    rcases mem_foldl_replace cs (replaceAllChar c l) x h with h1 | ⟨h2, h3⟩
    · exact Or.inl h1
    · rcases mem_replaceAllChar h2 with h4 | ⟨h5, h6⟩
      · exact Or.inl h4
      · exact Or.inr ⟨h5, fun hmem => (List.mem_cons.mp hmem).elim h6 h3⟩

/-- Stripping keeps a subset of the characters. -/
theorem mem_stripSpaceDot {x : Char} {l : List Char} (h : x ∈ stripSpaceDot l) : x ∈ l := by
  unfold stripSpaceDot at h
  rw [List.mem_reverse] at h
  have h1 := (List.dropWhile_sublist _).subset h
  rw [List.mem_reverse] at h1
  exact (List.dropWhile_sublist _).subset h1

/-- Core of the sanitizer guarantee, for either truncation branch. -/
theorem sanitize_core {s : String} {l : List Char}
    (hsub : ∀ c ∈ l, c ∈ stripSpaceDot
      (problematic_chars.foldl (fun acc ch => replaceAllChar ch acc) s.data))
    (hlen : l.length ≤ 100) (hne : l ≠ []) :
    (∀ c ∈ (String.mk l).data, c ∉ problematic_chars) ∧
    (String.mk l).length ≤ 100 ∧ String.mk l ≠ "" := by
  refine ⟨?_, hlen, ?_⟩
  · intro c hc hprob
    rcases mem_foldl_replace problematic_chars s.data c
      (mem_stripSpaceDot (hsub c hc)) with h1 | ⟨_, h2⟩
    · rw [h1] at hprob
      exact absurd hprob (by decide)
    · exact h2 hprob
  · intro hemp
    exact hne (congrArg String.data hemp)

/-- Claim C9 (confirmed).  For every input string, `sanitize_filename`
returns a string with none of the nine forbidden characters
`: / \ < > " | ? *`, of length at most 100, and never empty — the literal
`"Unknown"` stands in whenever the cleaned result would be empty. -/
theorem c9_sanitize_safe (s : String) :
    (∀ c ∈ (sanitize_filename s).data, c ∉ problematic_chars) ∧
    (sanitize_filename s).length ≤ 100 ∧
    sanitize_filename s ≠ "" := by
  unfold sanitize_filename
  by_cases hs : s = ""
  · rw [if_pos hs]
    exact ⟨by decide, by decide, by decide⟩
  · rw [if_neg hs]
    simp only []
    by_cases hlen : (stripSpaceDot
        (problematic_chars.foldl (fun acc ch => replaceAllChar ch acc) s.data)).length > 100
    · rw [if_pos hlen]
      by_cases hemp : (List.take 100 (stripSpaceDot
          (problematic_chars.foldl (fun acc ch => replaceAllChar ch acc) s.data))).isEmpty = true
      · rw [if_pos hemp]
        exact ⟨by decide, by decide, by decide⟩
      · rw [if_neg hemp]
        exact sanitize_core (fun c hc => List.take_subset _ _ hc)
          (by rw [List.length_take]; exact min_le_left _ _)
          (fun h0 => hemp (by rw [h0]; rfl))
    · rw [if_neg hlen]
      by_cases hemp : (stripSpaceDot
          (problematic_chars.foldl (fun acc ch => replaceAllChar ch acc) s.data)).isEmpty = true
      · rw [if_pos hemp]
        exact ⟨by decide, by decide, by decide⟩
      · rw [if_neg hemp]
        exact sanitize_core (fun c hc => hc) (Nat.le_of_not_lt hlen)
          (fun h0 => hemp (by rw [h0]; rfl))

/-! ## Timestamp-codec claim -/

/-- Claim C10 (confirmed).  The codec returns `"Unknown Time"` for a null
or zero raw value and whenever the computed calendar value overflows the
representable range (`datetimeFromMac` returns the caught `OverflowError`),
and it never raises: for every integer input the result is a plain string —
either `"Unknown Time"` or the formatted calendar value of the in-range
instant. -/
theorem c10_timestamp_codec (raw : Option Int) :
    ((raw = none ∨ raw = some 0) → format_timestamp raw = "Unknown Time") ∧
    (∀ ts err, raw = some ts → datetimeFromMac ts = Except.error err →
      format_timestamp raw = "Unknown Time") ∧
    (∀ ts od, raw = some ts → ts ≠ 0 → datetimeFromMac ts = Except.ok od →
      format_timestamp raw = strftimeYmdHms od.1 od.2) := by
  refine ⟨?_, ?_, ?_⟩
  · rintro (rfl | rfl) <;> rfl
  · rintro ts err rfl herr
    show (if ts = 0 then "Unknown Time"
      else match datetimeFromMac ts with
        | Except.ok od => strftimeYmdHms od.1 od.2
        | Except.error _ => "Unknown Time") = "Unknown Time"
    by_cases hts : ts = 0
    · rw [if_pos hts]
    · rw [if_neg hts, herr]
  · rintro ts od rfl hts hok
    show (if ts = 0 then "Unknown Time"
      else match datetimeFromMac ts with
        | Except.ok od => strftimeYmdHms od.1 od.2
        | Except.error _ => "Unknown Time") = strftimeYmdHms od.1 od.2
    rw [if_neg hts, hok]

/-- Witness for C10: the null, zero, overflowing and in-range cases at
concrete inputs (`10^21` nanoseconds exceeds year 9999; `10^9` nanoseconds
is one second past the Mac epoch, ordinal 730486). -/
theorem c10_timestamp_codec_witness :
    format_timestamp none = "Unknown Time" ∧
    format_timestamp (some 0) = "Unknown Time" ∧
    format_timestamp (some (10 ^ 21)) = "Unknown Time" ∧
    format_timestamp (some 1000000000) = strftimeYmdHms 730486 1 :=
  ⟨(c10_timestamp_codec none).1 (Or.inl rfl),
   (c10_timestamp_codec (some 0)).1 (Or.inr rfl),
   (c10_timestamp_codec (some (10 ^ 21))).2.1 (10 ^ 21)
     "OverflowError: date value out of range" rfl rfl,
   (c10_timestamp_codec (some 1000000000)).2.2 1000000000 (730486, 1) rfl
     (by decide) rfl⟩

/-! ## The no-filename claim -/

/-- Python `a or b` evaluates to `a`'s value when `a` is truthy. -/
theorem pyOrStr_of_truthy {o : Option String} {b : String} (h : truthyStr o = true) :
    pyOrStr o b = o.getD "" := by
  match o with
  | none => exact absurd h (by decide)
  | some s =>
    have h' : (s != "") = true := h
    show (if s = "" then b else s) = s
    rw [if_neg (by simpa using h')]

/-- Claim C7 (corrected, amended).  The resolver fails with
`"No filename provided"` exactly when the recorded source path is absent or
empty — regardless of the transfer name, which is *not* consulted in that
case.  The transfer-name fallback applies only when the recorded path is
nonempty but its basename is empty (a path ending in `/`): then the
destination filename is the transfer name and resolution proceeds (it may
still fail, but only with `"Source file not found"`). -/
theorem c7_no_filename_amended (resumeMode dryRun : Bool) (fs : FS) (stats : Stats)
    (a : Attachment) (folder : String) :
    (truthyStr a.filename = false →
      copy_attachment resumeMode dryRun fs stats a folder
        = ((false, "No filename provided"), stats, fs, [])) ∧
    (∀ f, a.filename = some f → f ≠ "" → basename f = "" →
      truthyStr a.transfer_name = true →
      ((copy_attachment resumeMode dryRun fs stats a folder).1
          = (true, a.transfer_name.getD "") ∨
        (copy_attachment resumeMode dryRun fs stats a folder).1
          = (false, "Source file not found: " ++ expanduser f))) := by
  constructor
  · intro hf
    unfold copy_attachment
    rw [hf]
    rfl
  · rintro f hfeq hfne hbase htr
    have htru : truthyStr a.filename = true := by
      rw [hfeq]
      simp only [truthyStr]
      exact bne_iff_ne.mpr hfne
    unfold copy_attachment
    rw [htru]
    simp only [Bool.not_true, Bool.false_eq_true, if_false]
    rw [hfeq]
    simp only [Option.getD_some]
    rw [hbase]
    rw [if_pos rfl]
    rw [pyOrStr_of_truthy htr]
    repeat' split
    all_goals first | exact Or.inl rfl | exact Or.inr rfl

/-- Witness for the amended C7: `attNoName` (no recorded path, transfer
name present) fails with `"No filename provided"`; `attSlash` (recorded
path `"/"`, empty basename) proceeds under the transfer-derived name and,
with the source `"/"` missing from the empty file set, fails with
`"Source file not found"`. -/
theorem c7_no_filename_witness :
    copy_attachment true false [] initStats attNoName "/d"
      = ((false, "No filename provided"), initStats, [], []) ∧
    ((copy_attachment true false [] initStats attSlash "/d").1
        = (true, attSlash.transfer_name.getD "") ∨
      (copy_attachment true false [] initStats attSlash "/d").1
        = (false, "Source file not found: " ++ expanduser "/")) :=
  ⟨(c7_no_filename_amended true false [] initStats attNoName "/d").1 (by decide),
   (c7_no_filename_amended true false [] initStats attSlash "/d").2 "/" rfl
     (by decide) (by decide) (by decide)⟩

/-! ## Transcript-order refinement -/

/-- The `(success, result)` pair and the updated file set of
`copy_attachment` do not depend on the stats dict passed in. -/
theorem copy_attachment_stats_irrel (r d : Bool) (fs : FS) (s s' : Stats)
    (a : Attachment) (f : String) :
    (copy_attachment r d fs s a f).1 = (copy_attachment r d fs s' a f).1 ∧
    (copy_attachment r d fs s a f).2.2.1 = (copy_attachment r d fs s' a f).2.2.1 := by
  simp only [copy_attachment]
  repeat' split
  all_goals exact ⟨rfl, rfl⟩

/-- The attachment loop body appends exactly the one line of `specAttLine`
and leaves its file set. -/
theorem processAttachment_lines_fs (cfg : Cfg) (ts sender folder : String)
    (atts : List Attachment) (st : RunState) (a : Attachment) :
    (processAttachment cfg ts sender folder atts st a).lines
        = st.lines ++ [(specAttLine cfg ts sender folder st.fs a).1] ∧
    (processAttachment cfg ts sender folder atts st a).fs
        = (specAttLine cfg ts sender folder st.fs a).2 := by
  obtain ⟨h1, h2⟩ := copy_attachment_stats_irrel cfg.resumeMode cfg.dryRun st.fs
    (statBump st.stats "attachments_found") [] a folder
  simp only [processAttachment, specAttLine]
  rw [h1, h2]
  split
  · exact ⟨rfl, rfl⟩
  · exact ⟨rfl, rfl⟩

/-- Unfolding equation: `specAttLines` on a cons. -/
theorem specAttLines_cons (cfg : Cfg) (ts sender folder : String) (fs : FS)
    (a : Attachment) (rest : List Attachment) :
    specAttLines cfg ts sender folder fs (a :: rest) =
      ((specAttLine cfg ts sender folder fs a).1 ::
        (specAttLines cfg ts sender folder (specAttLine cfg ts sender folder fs a).2 rest).1,
       (specAttLines cfg ts sender folder (specAttLine cfg ts sender folder fs a).2 rest).2) :=
  rfl

/-- The attachment loop produces exactly the `specAttLines` lines, in
order, appended after the incoming buffer. -/
theorem att_foldl_lines_fs (cfg : Cfg) (ts sender folder : String)
    (atts0 : List Attachment) :
    ∀ (atts : List Attachment) (st : RunState),
      (atts.foldl (processAttachment cfg ts sender folder atts0) st).lines
        = st.lines ++ (specAttLines cfg ts sender folder st.fs atts).1 ∧
      (atts.foldl (processAttachment cfg ts sender folder atts0) st).fs
        = (specAttLines cfg ts sender folder st.fs atts).2
  | [], st => by
    constructor
    · show st.lines = st.lines ++ []
      rw [List.append_nil]
    · rfl
  | a :: rest, st => by
    obtain ⟨hl, hf⟩ := processAttachment_lines_fs cfg ts sender folder atts0 st a
    obtain ⟨ihl, ihf⟩ := att_foldl_lines_fs cfg ts sender folder atts0 rest
      (processAttachment cfg ts sender folder atts0 st a)
    rw [specAttLines_cons]
    constructor
    · rw [List.foldl_cons, ihl, hl, hf]
      simp [List.append_assoc]
    · rw [List.foldl_cons, ihf, hf]

/-- The message loop body appends exactly its `specMessageBlock`. -/
theorem processMessage_lines_fs (cfg : Cfg) (db : Database) (ci : ChatInfo)
    (folder : String) (st : RunState) (m : Message) :
    (processMessage cfg db ci folder st m).lines
        = st.lines ++ (specMessageBlock cfg db ci folder st.fs m).1 ∧
    (processMessage cfg db ci folder st m).fs
        = (specMessageBlock cfg db ci folder st.fs m).2 := by
  unfold processMessage specMessageBlock
  simp only []
  by_cases htext : textShown m.text = true
  · rw [if_pos htext, if_pos htext]
    obtain ⟨hl, hf⟩ := att_foldl_lines_fs cfg (format_timestamp m.date) (senderFor ci m)
      folder (db.attachmentsFor m.message_id) (db.attachmentsFor m.message_id)
      ⟨st.lines ++ ["[" ++ format_timestamp m.date ++ "] " ++ senderFor ci m ++ ": "
        ++ m.text.getD ""], statBump st.stats "messages", st.fs, st.eff⟩
    constructor
    · rw [hl]
      simp [List.append_assoc]
    · rw [hf]
  · rw [if_neg htext, if_neg htext]
    obtain ⟨hl, hf⟩ := att_foldl_lines_fs cfg (format_timestamp m.date) (senderFor ci m)
      folder (db.attachmentsFor m.message_id) (db.attachmentsFor m.message_id)
      ⟨st.lines, statBump st.stats "messages", st.fs, st.eff⟩
    constructor
    · rw [hl]
      simp
    · rw [hf]

/-- Unfolding equation: `specMessageBlocks` on a cons. -/
theorem specMessageBlocks_cons (cfg : Cfg) (db : Database) (ci : ChatInfo)
    (folder : String) (fs : FS) (m : Message) (rest : List Message) :
    specMessageBlocks cfg db ci folder fs (m :: rest) =
      ((specMessageBlock cfg db ci folder fs m).1 ::
        (specMessageBlocks cfg db ci folder (specMessageBlock cfg db ci folder fs m).2 rest).1,
       (specMessageBlocks cfg db ci folder (specMessageBlock cfg db ci folder fs m).2 rest).2) :=
  rfl

/-- The message loop produces exactly the joined `specMessageBlocks`, in
message order. -/
theorem msg_foldl_lines_fs (cfg : Cfg) (db : Database) (ci : ChatInfo) (folder : String) :
    ∀ (ms : List Message) (st : RunState),
      (ms.foldl (processMessage cfg db ci folder) st).lines
        = st.lines ++ (specMessageBlocks cfg db ci folder st.fs ms).1.flatten ∧
      (ms.foldl (processMessage cfg db ci folder) st).fs
        = (specMessageBlocks cfg db ci folder st.fs ms).2
  | [], st => by
    constructor
    · show st.lines = st.lines ++ [].flatten
      simp
    · rfl
  | m :: rest, st => by
    obtain ⟨hl, hf⟩ := processMessage_lines_fs cfg db ci folder st m
    obtain ⟨ihl, ihf⟩ := msg_foldl_lines_fs cfg db ci folder rest
      (processMessage cfg db ci folder st m)
    rw [specMessageBlocks_cons]
    constructor
    · rw [List.foldl_cons, ihl, hl, hf]
      simp [List.append_assoc]
    · rw [List.foldl_cons, ihf, hf]

/-- One block per message, in order. -/
theorem specMessageBlocks_length (cfg : Cfg) (db : Database) (ci : ChatInfo)
    (folder : String) :
    ∀ (fs : FS) (ms : List Message),
      ((specMessageBlocks cfg db ci folder fs ms).1).length = ms.length
  | _, [] => rfl
  | fs, m :: rest => by
    rw [specMessageBlocks_cons]
    show ((specMessageBlock cfg db ci folder fs m).1 :: _).length = _
    rw [List.length_cons, specMessageBlocks_length cfg db ci folder _ rest]
    rfl

/-- The folder path returned by `create_contact_folder` is
`contactFolderFor`, in dry and real runs alike. -/
theorem create_contact_folder_path (d : Bool) (ci : ChatInfo) :
    (create_contact_folder d ci).1 = contactFolderFor ci := rfl

/-- Claim C4 (confirmed).  The transcript contribution of every
conversation equals `specChatLines`: the header, then — in exactly the
order the Database Reader returned the messages (`ORDER BY m.date ASC`,
ties left in store row order), never re-sorted — one block per message
(`specMessageBlocks_length`), each block the message's text line (when the
body is non-blank) followed immediately by that message's attachment
lines, then the blank separator.  Order preservation is structural: the
blocks are built by recursion over the database-returned list. -/
theorem c4_transcript_order (cfg : Cfg) (db : Database) (st : RunState)
    (c : String × ChatInfo) :
    (processChat cfg db st c).lines = st.lines ++ specChatLines cfg db st.fs c ∧
    ∀ (fs : FS) (ms : List Message),
      ((specMessageBlocks cfg db c.2 (contactFolderFor c.2) fs ms).1).length = ms.length := by
  refine ⟨?_, fun fs ms => specMessageBlocks_length cfg db c.2 (contactFolderFor c.2) fs ms⟩
  unfold processChat specChatLines
  simp only []
  split
  · rw [List.append_nil]
  · simp only [create_contact_folder_path]
    obtain ⟨hl, hf⟩ := msg_foldl_lines_fs cfg db c.2 (contactFolderFor c.2)
      (db.messagesFor c.1)
      ⟨st.lines ++ [headerFor c.1 c.2],
       statBump (statBump st.stats "conversations") "contacts_processed",
       st.fs, st.eff ++ (create_contact_folder cfg.dryRun c.2).2⟩
    rw [hl]
    simp [List.append_assoc]

/-! ## Dry-run frame lemmas -/

/-- `fsExists` is membership. -/
theorem fsExists_eq_decide (fs : FS) (p : String) : fsExists fs p = decide (p ∈ fs) := by
  simp [fsExists]

/-- An absent path does not exist. -/
theorem fsExists_false {fs : FS} {p : String} (h : p ∉ fs) : fsExists fs p = false := by
  rw [fsExists_eq_decide]
  simpa using h

/-- Prepended files not containing `p` do not change its existence check. -/
theorem fsExists_append_not_mem {news fs0 : FS} {p : String} (h : p ∉ news) :
    fsExists (news ++ fs0) p = fsExists fs0 p := by
  rw [fsExists_eq_decide, fsExists_eq_decide]
  exact decide_eq_decide.mpr (by simp [List.mem_append, h])

/-- With `DRY_RUN` on, `copy_attachment` touches nothing. -/
theorem copy_attachment_dry (r : Bool) (fs : FS) (s : Stats) (a : Attachment) (f : String) :
    (copy_attachment r true fs s a f).2.2.1 = fs ∧
    (copy_attachment r true fs s a f).2.2.2 = [] := by
  simp only [copy_attachment]
  repeat' split
  all_goals first | exact ⟨rfl, rfl⟩ | simp_all

/-- The attachment loop body, written as a function of the
`copy_attachment` result (definitional repackaging of lines 946-958). -/
theorem processAttachment_eq (cfg : Cfg) (ts sender folder : String)
    (atts : List Attachment) (st : RunState) (a : Attachment) :
    processAttachment cfg ts sender folder atts st a =
      (fun r : (Bool × String) × Stats × FS × List FsOp =>
        if r.1.1 then
          { lines := st.lines ++
              ["[" ++ ts ++ "] " ++ sender ++ ": [Attachment: " ++ r.1.2 ++ "]"],
            stats := if ((if statInt r.2.1 "attachments_skipped" > 0 then atts else []).map
                (fun x => x.filename)).contains (some r.1.2) then r.2.1
              else statBump r.2.1 "attachments_copied",
            fs := r.2.2.1, eff := st.eff ++ r.2.2.2 }
        else
          { lines := st.lines ++
              ["[" ++ ts ++ "] " ++ sender ++ ": [Missing Attachment: " ++
                (if truthyStr a.filename then basename (a.filename.getD "") else "unknown")
                ++ "]"],
            stats := statBump r.2.1 "attachments_failed",
            fs := r.2.2.1, eff := st.eff ++ r.2.2.2 })
      (copy_attachment cfg.resumeMode cfg.dryRun st.fs
        (statBump st.stats "attachments_found") a folder) :=
  rfl

/-- With `DRY_RUN` on, the attachment loop body touches nothing. -/
theorem processAttachment_dry (cfg : Cfg) (hdry : cfg.dryRun = true)
    (ts sender folder : String) (atts : List Attachment) (st : RunState) (a : Attachment) :
    (processAttachment cfg ts sender folder atts st a).fs = st.fs ∧
    (processAttachment cfg ts sender folder atts st a).eff = st.eff := by
  obtain ⟨hfs, heff⟩ := copy_attachment_dry cfg.resumeMode st.fs
    (statBump st.stats "attachments_found") a folder
  rw [processAttachment_eq]
  simp only [hdry]
  constructor <;> (dsimp only; split <;> simp [hfs, heff])

/-- With `DRY_RUN` on, the message loop body touches nothing. -/
theorem processMessage_dry (cfg : Cfg) (hdry : cfg.dryRun = true) (db : Database)
    (ci : ChatInfo) (folder : String) (st : RunState) (m : Message) :
    (processMessage cfg db ci folder st m).fs = st.fs ∧
    (processMessage cfg db ci folder st m).eff = st.eff := by
  unfold processMessage
  simp only []
  apply foldl_preserve (fun b : RunState => b.fs = st.fs ∧ b.eff = st.eff)
    (fun b a hb =>
      ⟨((processAttachment_dry cfg hdry _ _ folder _ b a).1).trans hb.1,
       ((processAttachment_dry cfg hdry _ _ folder _ b a).2).trans hb.2⟩)
  split <;> exact ⟨rfl, rfl⟩

/-- With `DRY_RUN` on, the chat loop body touches nothing. -/
theorem processChat_dry (cfg : Cfg) (hdry : cfg.dryRun = true) (db : Database)
    (st : RunState) (c : String × ChatInfo) :
    (processChat cfg db st c).fs = st.fs ∧
    (processChat cfg db st c).eff = st.eff := by
  unfold processChat
  simp only []
  split
  · exact ⟨rfl, rfl⟩
  · have hbase : ((⟨st.lines ++ [headerFor c.1 c.2],
        statBump (statBump st.stats "conversations") "contacts_processed",
        st.fs, st.eff ++ (create_contact_folder cfg.dryRun c.2).2⟩ : RunState)).fs = st.fs ∧
        ((⟨st.lines ++ [headerFor c.1 c.2],
          statBump (statBump st.stats "conversations") "contacts_processed",
          st.fs, st.eff ++ (create_contact_folder cfg.dryRun c.2).2⟩ : RunState)).eff = st.eff := by
      refine ⟨rfl, ?_⟩
      show st.eff ++ (create_contact_folder cfg.dryRun c.2).2 = st.eff
      rw [hdry]
      simp [create_contact_folder]
    exact foldl_preserve (fun b : RunState => b.fs = st.fs ∧ b.eff = st.eff)
      (fun b a hb =>
        ⟨((processMessage_dry cfg hdry db _ _ b a).1).trans hb.1,
         ((processMessage_dry cfg hdry db _ _ b a).2).trans hb.2⟩)
      _ _ hbase

/-- With `DRY_RUN` on, the export performs no filesystem operation and
leaves the file set untouched; the whole process trace is exactly
`setup_logging`'s (output root directory plus debug log). -/
theorem export_dry_frame (cfg : Cfg) (hdry : cfg.dryRun = true)
    (dbase : Option Database) (fs0 : FS) :
    (export_conversations cfg dbase fs0).eff = [] ∧
    (export_conversations cfg dbase fs0).fs = fs0 ∧
    (mainRun cfg dbase fs0).2 = setupLoggingEff := by
  have hexp : (export_conversations cfg dbase fs0).eff = [] ∧
      (export_conversations cfg dbase fs0).fs = fs0 := by
    match dbase with
    | none => exact ⟨rfl, rfl⟩
    | some db =>
      by_cases hchats : db.chats.isEmpty = true
      · unfold export_conversations
        dsimp only
        rw [if_pos hchats]
        exact ⟨rfl, rfl⟩
      · rw [export_some_eq cfg db fs0 (by simpa using hchats)]
        have hbase : ((⟨[], initStats, fs0, if cfg.dryRun then [] else
            [FsOp.makedirs OUTPUT_DIR, FsOp.makedirs (joinPath OUTPUT_DIR "attachments")]⟩ :
              RunState)).eff = [] ∧
            ((⟨[], initStats, fs0, if cfg.dryRun then [] else
              [FsOp.makedirs OUTPUT_DIR,
               FsOp.makedirs (joinPath OUTPUT_DIR "attachments")]⟩ : RunState)).fs = fs0 := by
          constructor
          · show (if cfg.dryRun then [] else
              [FsOp.makedirs OUTPUT_DIR, FsOp.makedirs (joinPath OUTPUT_DIR "attachments")]) = []
            rw [hdry]
            rfl
          · rfl
        have hfold := foldl_preserve (fun b : RunState => b.eff = [] ∧ b.fs = fs0)
          (fun b a hb =>
            ⟨((processChat_dry cfg hdry db b a).2).trans hb.1,
             ((processChat_dry cfg hdry db b a).1).trans hb.2⟩)
          db.chats _ hbase
        simp only []
        constructor
        · rw [hfold.1, hdry]
          rfl
        · exact hfold.2
  refine ⟨hexp.1, hexp.2, ?_⟩
  show setupLoggingEff ++ (export_conversations cfg dbase fs0).eff = setupLoggingEff
  rw [hexp.1, List.append_nil]

/-! ## Dry-run versus real-run stats simulation -/

/-- `copy_attachment` with a falsy recorded filename. -/
theorem copy_attachment_nofile (r d : Bool) (fs : FS) (s : Stats) (a : Attachment)
    (f : String) (h : truthyStr a.filename = false) :
    copy_attachment r d fs s a f = ((false, "No filename provided"), s, fs, []) := by
  unfold copy_attachment
  rw [h]
  rfl

/-- `copy_attachment` with a truthy recorded filename, branch structure
exposed in terms of the derived destination name. -/
theorem copy_attachment_eq_general (r d : Bool) (fs : FS) (s : Stats) (a : Attachment)
    (f : String) (htru : truthyStr a.filename = true) :
    copy_attachment r d fs s a f =
      (if (r && fsExists fs (joinPath f (destNameOf a))) = true then
        ((true, destNameOf a), statBump s "attachments_skipped", fs, [])
      else if (!fsExists fs (expanduser (a.filename.getD ""))) = true then
        ((false, "Source file not found: " ++ expanduser (a.filename.getD "")), s, fs, [])
      else if d = true then ((true, destNameOf a), s, fs, [])
      else ((true, destNameOf a), s, joinPath f (destNameOf a) :: fs,
        [FsOp.copy2 (expanduser (a.filename.getD "")) (joinPath f (destNameOf a))])) := by
  unfold copy_attachment destNameOf
  rw [htru]
  rfl

/-- Per-attachment simulation step: with fresh destinations the real and
dry runs take the same branches and update stats and transcript
identically. -/
theorem dry_rel_att (r : Bool) (fs0 : FS) (allP : List (String × String))
    (hNodup : (allP.map Prod.fst).Nodup)
    (hFresh : ∀ p ∈ allP, p.1 ∉ fs0 ∧ ∀ q ∈ allP, p.1 ≠ q.2)
    (ts sender folder : String) (atts0 : List Attachment) (a : Attachment)
    (done pend : List (String × String)) (stW stD : RunState)
    (hAll : done ++ (pairsOfAttachment folder a ++ pend) = allP)
    (hrel : DryRel fs0 (done.map Prod.fst) stW stD) :
    DryRel fs0 ((done ++ pairsOfAttachment folder a).map Prod.fst)
      (processAttachment ⟨false, r⟩ ts sender folder atts0 stW a)
      (processAttachment ⟨true, r⟩ ts sender folder atts0 stD a) := by
  obtain ⟨hstats, hlines, hDfs, news, hWfs, hnews⟩ := hrel
  rw [processAttachment_eq, processAttachment_eq]
  by_cases htru : truthyStr a.filename = true
  case neg =>
    have htru' : truthyStr a.filename = false := by simpa using htru
    have hpa : pairsOfAttachment folder a = [] := by
      simp [pairsOfAttachment, htru']
    rw [copy_attachment_nofile _ _ _ _ _ _ htru', copy_attachment_nofile _ _ _ _ _ _ htru']
    dsimp only
    simp only [Bool.false_eq_true, if_false]
    refine ⟨by rw [hstats], by rw [hlines], hDfs, news, hWfs, ?_⟩
    intro x hx
    rw [hpa]
    simpa using hnews x hx
  case pos =>
    have hpa : pairsOfAttachment folder a =
        [(joinPath folder (destNameOf a), expanduser (a.filename.getD ""))] := by
      simp [pairsOfAttachment, htru]
    rw [hpa] at hAll
    rw [hpa]
    have hmem : (joinPath folder (destNameOf a), expanduser (a.filename.getD "")) ∈ allP :=
      hAll ▸ List.mem_append.mpr (Or.inr (List.mem_append.mpr (Or.inl (List.mem_cons_self _ _))))
    have hdn : joinPath folder (destNameOf a) ∉ fs0 := (hFresh _ hmem).1
    have hdnotdone : joinPath folder (destNameOf a) ∉ done.map Prod.fst := by
      have h2 : ((done ++ ([(joinPath folder (destNameOf a), expanduser (a.filename.getD ""))]
          ++ pend)).map Prod.fst).Nodup := by
        rw [hAll]
        exact hNodup
      rw [List.map_append, List.nodup_append] at h2
      obtain ⟨-, -, hdisj⟩ := h2
      intro hd
      exact hdisj hd (by simp)
    have hdnews : joinPath folder (destNameOf a) ∉ news := fun hx => hdnotdone (hnews _ hx)
    have hsnews : expanduser (a.filename.getD "") ∉ news := by
      intro hx
      obtain ⟨q, hq, hq1⟩ := List.mem_map.mp (hnews _ hx)
      have hqAll : q ∈ allP := hAll ▸ List.mem_append.mpr (Or.inl hq)
      exact (hFresh q hqAll).2 _ hmem hq1
    have hresW : fsExists stW.fs (joinPath folder (destNameOf a)) = false := by
      rw [hWfs, fsExists_append_not_mem hdnews]
      exact fsExists_false hdn
    have hresD : fsExists stD.fs (joinPath folder (destNameOf a)) = false := by
      rw [hDfs]
      exact fsExists_false hdn
    have hsrc : fsExists stW.fs (expanduser (a.filename.getD ""))
        = fsExists fs0 (expanduser (a.filename.getD "")) := by
      rw [hWfs]
      exact fsExists_append_not_mem hsnews
    rw [copy_attachment_eq_general _ _ _ _ _ _ htru, copy_attachment_eq_general _ _ _ _ _ _ htru]
    dsimp only
    rw [hresW, hresD]
    simp only [Bool.and_false, Bool.false_eq_true, if_false]
    by_cases hsrc0 : fsExists fs0 (expanduser (a.filename.getD "")) = true
    · have hsW : fsExists stW.fs (expanduser (a.filename.getD "")) = true := by
        rw [hsrc]
        exact hsrc0
      have hsD : fsExists stD.fs (expanduser (a.filename.getD "")) = true := by
        rw [hDfs]
        exact hsrc0
      rw [hsW, hsD]
      simp only [Bool.not_true, Bool.false_eq_true, if_false, eq_self_iff_true, if_true]
      refine ⟨by rw [hstats], by rw [hlines], hDfs,
        joinPath folder (destNameOf a) :: news, by rw [hWfs]; rfl, ?_⟩
      intro x hx
      rcases List.mem_cons.mp hx with hx1 | hx2
      · rw [hx1, List.map_append]
        exact List.mem_append.mpr (Or.inr (by simp))
      · rw [List.map_append]
        exact List.mem_append.mpr (Or.inl (hnews _ hx2))
    · have hsrc0' : fsExists fs0 (expanduser (a.filename.getD "")) = false := by
        simpa using hsrc0
      have hsW : fsExists stW.fs (expanduser (a.filename.getD "")) = false := by
        rw [hsrc]
        exact hsrc0'
      have hsD : fsExists stD.fs (expanduser (a.filename.getD "")) = false := by
        rw [hDfs]
        exact hsrc0'
      rw [hsW, hsD]
      simp only [Bool.not_false, eq_self_iff_true, if_true, Bool.false_eq_true, if_false]
      refine ⟨by rw [hstats], by rw [hlines], hDfs, news, hWfs, ?_⟩
      intro x hx
      rw [List.map_append]
      exact List.mem_append.mpr (Or.inl (hnews _ hx))

/-- Attachment-list fold of the simulation step. -/
theorem dry_rel_atts (r : Bool) (fs0 : FS) (allP : List (String × String))
    (hNodup : (allP.map Prod.fst).Nodup)
    (hFresh : ∀ p ∈ allP, p.1 ∉ fs0 ∧ ∀ q ∈ allP, p.1 ≠ q.2)
    (ts sender folder : String) (atts0 : List Attachment) :
    ∀ (atts : List Attachment) (done pend : List (String × String)) (stW stD : RunState),
      done ++ (atts.flatMap (pairsOfAttachment folder) ++ pend) = allP →
      DryRel fs0 (done.map Prod.fst) stW stD →
      DryRel fs0 ((done ++ atts.flatMap (pairsOfAttachment folder)).map Prod.fst)
        (atts.foldl (processAttachment ⟨false, r⟩ ts sender folder atts0) stW)
        (atts.foldl (processAttachment ⟨true, r⟩ ts sender folder atts0) stD)
  | [], done, pend, stW, stD, hAll, hrel => by
    simpa using hrel
  | a :: rest, done, pend, stW, stD, hAll, hrel => by
    have hstep := dry_rel_att r fs0 allP hNodup hFresh ts sender folder atts0 a done
      (rest.flatMap (pairsOfAttachment folder) ++ pend) stW stD
      (by rw [← hAll, List.flatMap_cons]; simp [List.append_assoc]) hrel
    have hAll1 : (done ++ pairsOfAttachment folder a)
        ++ (rest.flatMap (pairsOfAttachment folder) ++ pend) = allP := by
      rw [← hAll, List.flatMap_cons]
      simp [List.append_assoc]
    have hrec := dry_rel_atts r fs0 allP hNodup hFresh ts sender folder atts0 rest
      (done ++ pairsOfAttachment folder a) pend _ _ hAll1 hstep
    rw [List.foldl_cons, List.foldl_cons]
    have heq : done ++ (a :: rest).flatMap (pairsOfAttachment folder)
        = (done ++ pairsOfAttachment folder a) ++ rest.flatMap (pairsOfAttachment folder) := by
      rw [List.flatMap_cons, List.append_assoc]
    rw [heq]
    exact hrec

/-- Message-level simulation step. -/
theorem dry_rel_msg (r : Bool) (fs0 : FS) (allP : List (String × String))
    (hNodup : (allP.map Prod.fst).Nodup)
    (hFresh : ∀ p ∈ allP, p.1 ∉ fs0 ∧ ∀ q ∈ allP, p.1 ≠ q.2)
    (db : Database) (ci : ChatInfo) (folder : String) (m : Message)
    (done pend : List (String × String)) (stW stD : RunState)
    (hAll : done ++ (pairsOfMessage db folder m ++ pend) = allP)
    (hrel : DryRel fs0 (done.map Prod.fst) stW stD) :
    DryRel fs0 ((done ++ pairsOfMessage db folder m).map Prod.fst)
      (processMessage ⟨false, r⟩ db ci folder stW m)
      (processMessage ⟨true, r⟩ db ci folder stD m) := by
  obtain ⟨hstats, hlines, hDfs, news, hWfs, hnews⟩ := hrel
  unfold processMessage
  simp only []
  by_cases htext : textShown m.text = true
  · rw [if_pos htext, if_pos htext]
    exact dry_rel_atts r fs0 allP hNodup hFresh (format_timestamp m.date) (senderFor ci m)
      folder (db.attachmentsFor m.message_id) (db.attachmentsFor m.message_id) done pend _ _
      hAll ⟨by rw [hstats], by rw [hlines], hDfs, news, hWfs, hnews⟩
  · rw [if_neg htext, if_neg htext]
    exact dry_rel_atts r fs0 allP hNodup hFresh (format_timestamp m.date) (senderFor ci m)
      folder (db.attachmentsFor m.message_id) (db.attachmentsFor m.message_id) done pend _ _
      hAll ⟨by rw [hstats], by rw [hlines], hDfs, news, hWfs, hnews⟩

/-- Message-list fold of the simulation step. -/
theorem dry_rel_msgs (r : Bool) (fs0 : FS) (allP : List (String × String))
    (hNodup : (allP.map Prod.fst).Nodup)
    (hFresh : ∀ p ∈ allP, p.1 ∉ fs0 ∧ ∀ q ∈ allP, p.1 ≠ q.2)
    (db : Database) (ci : ChatInfo) (folder : String) :
    ∀ (ms : List Message) (done pend : List (String × String)) (stW stD : RunState),
      done ++ (ms.flatMap (pairsOfMessage db folder) ++ pend) = allP →
      DryRel fs0 (done.map Prod.fst) stW stD →
      DryRel fs0 ((done ++ ms.flatMap (pairsOfMessage db folder)).map Prod.fst)
        (ms.foldl (processMessage ⟨false, r⟩ db ci folder) stW)
        (ms.foldl (processMessage ⟨true, r⟩ db ci folder) stD)
  | [], done, pend, stW, stD, hAll, hrel => by
    simpa using hrel
  | m :: rest, done, pend, stW, stD, hAll, hrel => by
    have hstep := dry_rel_msg r fs0 allP hNodup hFresh db ci folder m done
      (rest.flatMap (pairsOfMessage db folder) ++ pend) stW stD
      (by rw [← hAll, List.flatMap_cons]; simp [List.append_assoc]) hrel
    have hAll1 : (done ++ pairsOfMessage db folder m)
        ++ (rest.flatMap (pairsOfMessage db folder) ++ pend) = allP := by
      rw [← hAll, List.flatMap_cons]
      simp [List.append_assoc]
    have hrec := dry_rel_msgs r fs0 allP hNodup hFresh db ci folder rest
      (done ++ pairsOfMessage db folder m) pend _ _ hAll1 hstep
    rw [List.foldl_cons, List.foldl_cons]
    have heq : done ++ (m :: rest).flatMap (pairsOfMessage db folder)
        = (done ++ pairsOfMessage db folder m) ++ rest.flatMap (pairsOfMessage db folder) := by
      rw [List.flatMap_cons, List.append_assoc]
    rw [heq]
    exact hrec

/-- Chat-level simulation step. -/
theorem dry_rel_chat (r : Bool) (fs0 : FS) (allP : List (String × String))
    (hNodup : (allP.map Prod.fst).Nodup)
    (hFresh : ∀ p ∈ allP, p.1 ∉ fs0 ∧ ∀ q ∈ allP, p.1 ≠ q.2)
    (db : Database) (c : String × ChatInfo)
    (done pend : List (String × String)) (stW stD : RunState)
    (hAll : done ++ (pairsOfChat db c ++ pend) = allP)
    (hrel : DryRel fs0 (done.map Prod.fst) stW stD) :
    DryRel fs0 ((done ++ pairsOfChat db c).map Prod.fst)
      (processChat ⟨false, r⟩ db stW c)
      (processChat ⟨true, r⟩ db stD c) := by
  obtain ⟨hstats, hlines, hDfs, news, hWfs, hnews⟩ := hrel
  unfold processChat
  simp only [create_contact_folder_path]
  by_cases hempty : (db.messagesFor c.1).isEmpty = true
  · rw [if_pos hempty, if_pos hempty]
    have hpc : pairsOfChat db c = [] := by simp [pairsOfChat, hempty]
    rw [hpc]
    simpa using ⟨hstats, hlines, hDfs, news, hWfs, hnews⟩
  · rw [if_neg hempty, if_neg hempty]
    have hpc : pairsOfChat db c
        = (db.messagesFor c.1).flatMap (pairsOfMessage db (contactFolderFor c.2)) := by
      simp [pairsOfChat, hempty]
    rw [hpc]
    have hfold := dry_rel_msgs r fs0 allP hNodup hFresh db c.2 (contactFolderFor c.2)
      (db.messagesFor c.1) done pend
      ⟨stW.lines ++ [headerFor c.1 c.2],
       statBump (statBump stW.stats "conversations") "contacts_processed",
       stW.fs, stW.eff ++ (create_contact_folder false c.2).2⟩
      ⟨stD.lines ++ [headerFor c.1 c.2],
       statBump (statBump stD.stats "conversations") "contacts_processed",
       stD.fs, stD.eff ++ (create_contact_folder true c.2).2⟩
      (by rw [← hAll, hpc]) ⟨by rw [hstats], by rw [hlines], hDfs, news, hWfs, hnews⟩
    obtain ⟨h1, h2, h3, news2, h4, h5⟩ := hfold
    exact ⟨h1, by rw [h2], h3, news2, h4, h5⟩

/-- Chat-list fold of the simulation step. -/
theorem dry_rel_chats (r : Bool) (fs0 : FS) (allP : List (String × String))
    (hNodup : (allP.map Prod.fst).Nodup)
    (hFresh : ∀ p ∈ allP, p.1 ∉ fs0 ∧ ∀ q ∈ allP, p.1 ≠ q.2) (db : Database) :
    ∀ (cs : List (String × ChatInfo)) (done pend : List (String × String)) (stW stD : RunState),
      done ++ (cs.flatMap (pairsOfChat db) ++ pend) = allP →
      DryRel fs0 (done.map Prod.fst) stW stD →
      DryRel fs0 ((done ++ cs.flatMap (pairsOfChat db)).map Prod.fst)
        (cs.foldl (processChat ⟨false, r⟩ db) stW)
        (cs.foldl (processChat ⟨true, r⟩ db) stD)
  | [], done, pend, stW, stD, hAll, hrel => by
    simpa using hrel
  | c :: rest, done, pend, stW, stD, hAll, hrel => by
    have hstep := dry_rel_chat r fs0 allP hNodup hFresh db c done
      (rest.flatMap (pairsOfChat db) ++ pend) stW stD
      (by rw [← hAll, List.flatMap_cons]; simp [List.append_assoc]) hrel
    have hAll1 : (done ++ pairsOfChat db c) ++ (rest.flatMap (pairsOfChat db) ++ pend) = allP := by
      rw [← hAll, List.flatMap_cons]
      simp [List.append_assoc]
    have hrec := dry_rel_chats r fs0 allP hNodup hFresh db rest
      (done ++ pairsOfChat db c) pend _ _ hAll1 hstep
    rw [List.foldl_cons, List.foldl_cons]
    have heq : done ++ (c :: rest).flatMap (pairsOfChat db)
        = (done ++ pairsOfChat db c) ++ rest.flatMap (pairsOfChat db) := by
      rw [List.flatMap_cons, List.append_assoc]
    rw [heq]
    exact hrec

/-- Claim C3 (corrected, amended).  With `dryRun` enabled the export itself
performs no filesystem operation at all — no folder, transcript, attachment
or report file — and leaves the file set untouched; the only operations of
the whole process are `setup_logging`'s deliberate creation of the output
root directory and debug log, which happen even in dry run.  And the
accumulated statistics (and transcript) of a dry pass equal those of a
non-dry pass over the same input data *provided* the run's destination
paths are pairwise distinct, absent from the initial filesystem and
distinct from every source path (`freshDests`) — otherwise the two passes'
resume existence checks diverge, as the counterexample shows with a
duplicated destination. -/
theorem c3_dry_run_amended :
    (∀ (cfg : Cfg) (dbase : Option Database) (fs0 : FS), cfg.dryRun = true →
      (export_conversations cfg dbase fs0).eff = [] ∧
      (export_conversations cfg dbase fs0).fs = fs0 ∧
      (mainRun cfg dbase fs0).2 = setupLoggingEff) ∧
    (∀ (r : Bool) (db : Database) (fs0 : FS), freshDests db fs0 →
      (export_conversations ⟨true, r⟩ (some db) fs0).stats
        = (export_conversations ⟨false, r⟩ (some db) fs0).stats ∧
      (export_conversations ⟨true, r⟩ (some db) fs0).lines
        = (export_conversations ⟨false, r⟩ (some db) fs0).lines) := by
  refine ⟨fun cfg dbase fs0 hdry => export_dry_frame cfg hdry dbase fs0, ?_⟩
  rintro r db fs0 ⟨hNodup, hFresh⟩
  by_cases hchats : db.chats.isEmpty = true
  · unfold export_conversations
    dsimp only
    rw [if_pos hchats, if_pos hchats]
    exact ⟨rfl, rfl⟩
  · rw [export_some_eq ⟨true, r⟩ db fs0 (by simpa using hchats),
        export_some_eq ⟨false, r⟩ db fs0 (by simpa using hchats)]
    have hrel := dry_rel_chats r fs0 (allPairs db) hNodup hFresh db db.chats [] []
      (⟨[], initStats, fs0, if (⟨false, r⟩ : Cfg).dryRun then [] else
        [FsOp.makedirs OUTPUT_DIR, FsOp.makedirs (joinPath OUTPUT_DIR "attachments")]⟩ : RunState)
      (⟨[], initStats, fs0, if (⟨true, r⟩ : Cfg).dryRun then [] else
        [FsOp.makedirs OUTPUT_DIR, FsOp.makedirs (joinPath OUTPUT_DIR "attachments")]⟩ : RunState)
      (by simp [allPairs]) ⟨rfl, rfl, rfl, [], rfl, by simp⟩
    obtain ⟨h1, h2, -, -⟩ := hrel
    exact ⟨h1.symm, h2.symm⟩

/-- Witness for the amended C3: the dry-run frame at `db_c1` and the stats
and transcript agreement between the dry and real passes over `db_c1`,
whose single destination is fresh. -/
theorem c3_dry_run_witness :
    ((export_conversations cfgDry (some db_c1) fsA).eff = [] ∧
     (export_conversations cfgDry (some db_c1) fsA).fs = fsA ∧
     (mainRun cfgDry (some db_c1) fsA).2 = setupLoggingEff) ∧
    ((export_conversations ⟨true, true⟩ (some db_c1) fsA).stats
       = (export_conversations ⟨false, true⟩ (some db_c1) fsA).stats ∧
     (export_conversations ⟨true, true⟩ (some db_c1) fsA).lines
       = (export_conversations ⟨false, true⟩ (some db_c1) fsA).lines) :=
  ⟨c3_dry_run_amended.1 cfgDry (some db_c1) fsA rfl,
   c3_dry_run_amended.2 true db_c1 fsA (by decide)⟩
